import Mathlib

/-!
Verification of the miapy data extraction/creation core against its
specification.

The embedded source files are:
  * miapy/data/extraction/extractor.py  (the Extractor hierarchy)
  * miapy/data/creation/traverser.py    (the ingestion traverser)

External collaborators (the hierarchical store Reader, the image Loader)
and the two small value modules not present in the sources
(miapy.data.indexexpression, miapy.data.subjectfile, miapy.data.definition)
are modelled from the specification; each such definition carries a
doc comment starting with "Modelled from the spec".

Arrays are embedded functionally: an array is a shape together with a
total indexing function; machine mutation (numpy slice assignment) becomes
construction of a new indexing function, and every numpy error condition
relied upon by the code (negative dimensions, broadcast length mismatches,
destination slices that do not fit) is encoded as an explicit failure.
-/

/-- N-dimensional array: a shape and a total indexing function on integer
index lists.  Out-of-bounds probes return unspecified values; theorems only
constrain in-bounds indices. -/
structure NDArray where
  shape : List Nat
  get : List Int → Int

instance : Inhabited NDArray := ⟨⟨[], fun _ => 0⟩⟩

/-- Python exception classes raised by the embedded code paths. -/
inductive ErrKind where
  | valueError
  | indexError
  | attributeError
  | keyError
  | typeError
  | axisError
deriving DecidableEq, Repr

/-- Python exception: its class together with its message. -/
structure PyErr where
  kind : ErrKind
  msg : String
deriving DecidableEq, Repr

/-- Values held by the shared per-sample result mapping (Python dict). -/
inductive Value where
  | vArr (a : NDArray)
  | vNames (names : List String)
  | vStr (s : String)
  | vNat (n : Nat)

/-- Python dict assignment d[k] = v: replaces the value of an existing key
in place, otherwise appends the binding (insertion order preserved). -/
def dictSet (d : List (String × Value)) (k : String) (v : Value) : List (String × Value) :=
  if d.any (fun p => p.1 == k) then
    d.map (fun p => if p.1 == k then (k, v) else p)
  else d ++ [(k, v)]

/-- Python dict lookup d[k] as an option. -/
def dictGet? (d : List (String × Value)) (k : String) : Option Value :=
  (d.find? (fun p => p.1 == k)).map (·.2)

/-- Python membership test k in d. -/
def dictHas (d : List (String × Value)) (k : String) : Bool :=
  d.any (fun p => p.1 == k)

/-- Modelled from the spec: the data placeholder of miapy.data.definition
(not under src); a fixed store-key template per category. -/
def DATA_PLACEHOLDER (category : String) : String := "data/" ++ category

/-- Modelled from the spec: the names placeholder of miapy.data.definition
(not under src); a fixed store-key template per category. -/
def NAMES_PLACEHOLDER (category : String) : String := "meta/names/" ++ category

/-- Modelled from the spec: the external hierarchical store Reader
(spec sections 2 and 6).  Ranged dataset reads are served through
ndarrayRead over the backing array of the key; reads of non-array
metadata (the category name lists) are served by the raw field. -/
structure Reader where
  arrays : String → NDArray
  raw : String → Value
  has : String → Bool
  subjectEntries : List String

/-- Modelled from the spec: a ranged read on the external store with
numpy/h5py slicing semantics — each of the leading ranges is clamped to
the dimension extent (the extractors only pass non-negative bounds; a
negative bound is additionally clamped to 0 to keep the model total), an
empty or inverted range reads zero elements, and dimensions beyond the
ranges are returned in full. -/
def ndarrayRead (src : NDArray) (ranges : List (Int × Int)) : NDArray :=
  let cl := List.zipWith
    (fun (r : Int × Int) (len : Nat) =>
      (min (max r.1 0) (len : Int), min (max r.2 0) (len : Int)))
    ranges (src.shape.take ranges.length)
  { shape := cl.map (fun c => (c.2 - c.1).toNat) ++ src.shape.drop ranges.length
    get := fun idx =>
      src.get ((List.range cl.length).map (fun d => (cl.getD d (0, 0)).1 + idx.getD d 0)
               ++ idx.drop cl.length) }

/-- Embeds numpy stack along a new trailing axis: all inputs must share one
shape, the result appends the input count as a new last dimension, and the
last index coordinate selects the input.  none encodes the numpy errors
(empty input list or mismatched shapes). -/
def npStack (data : List NDArray) : Option NDArray :=
  match data with
  | [] => none
  | a :: rest =>
    if rest.all (fun b => b.shape == a.shape) then
      some { shape := a.shape ++ [data.length]
             get := fun idx => (data.getD (idx.getLast?.getD 0).toNat default).get idx.dropLast }
    else none

/-- Embeds numpy take along the last axis with a scalar index: the last
dimension is dropped and its coordinate fixed to the given index. -/
def npTakeScalar (a : NDArray) (j : Nat) : NDArray :=
  { shape := a.shape.dropLast, get := fun idx => a.get (idx ++ [(j : Int)]) }

/-- Embeds numpy take along the last axis with an index array: the last
dimension becomes the index count and the last coordinate selects which of
the given indices is read. -/
def npTakeIdxList (a : NDArray) (js : List Nat) : NDArray :=
  { shape := a.shape.dropLast ++ [js.length]
    get := fun idx => a.get (idx.dropLast ++ [((js.getD (idx.getLast?.getD 0).toNat 0 : Nat) : Int)]) }

/-- Embeds entry.rsplit with one split at a slash, taking the second part:
the substring after the last slash of a store entry path. -/
def baseNameOf (entry : String) : String := (entry.splitOn "/").getLastD ""

/-- Embeds the lazy entry_base_names resolution shared verbatim by
DataExtractor, SelectiveDataExtractor, RandomDataExtractor and
PadPatchDataExtractor: on first use, split every subject entry of the
reader at its last slash and keep the leaf. -/
def resolveEntryBaseNames (cached : Option (List String)) (r : Reader) : List String :=
  match cached with
  | some l => l
  | none => r.subjectEntries.map baseNameOf

/-- Python list subscription l[i] for a non-negative index: IndexError when
the index is out of range. -/
def listIndex (l : List α) (i : Nat) : Except PyErr α :=
  if h : i < l.length then .ok (l.get ⟨i, h⟩)
  else .error ⟨.indexError, "list index out of range"⟩

/-- Result of one extract call of a data-producing extractor: the new value
of the instance's lazy entry-name cache, the updated result mapping and
the ranged store reads issued by the call. -/
structure ExtractResult where
  cacheOut : Option (List String)
  extracted : List (String × Value)
  reads : List (String × Option (List (Int × Int)))

/-! NamesExtractor (extractor.py lines 34-60). -/

/-- State of a NamesExtractor instance: the constructor arguments together
with the mutable cached_result field. -/
structure NamesExtractor where
  cache : Bool
  cached_result : Option (List (String × Value))
  categories : List String

/-- Embeds NamesExtractor.__init__. -/
def NamesExtractor.init (cache : Bool) (categories : List String) : NamesExtractor :=
  ⟨cache, none, categories⟩

/-- Embeds NamesExtractor._extract: one store read per configured category,
stored in a dict under the category's names key. -/
def NamesExtractor.extractAux (r : Reader) (categories : List String) : List (String × Value) :=
  categories.map (fun c => (c ++ "_names", r.raw (NAMES_PLACEHOLDER c)))

/-- Embeds NamesExtractor.extract: recompute and refresh the cache when
caching is off or the cache is still empty, otherwise use the cache; then
copy every entry of the resulting dict into the shared mapping.  Returns
the new instance state, the updated mapping, and the store keys read by
this call. -/
def NamesExtractor.extract (st : NamesExtractor) (r : Reader) (extracted : List (String × Value)) :
    NamesExtractor × List (String × Value) × List String :=
  if !st.cache || st.cached_result.isNone then
    let d := NamesExtractor.extractAux r st.categories
    ({ st with cached_result := some d },
     d.foldl (fun acc kv => dictSet acc kv.1 kv.2) extracted,
     st.categories.map NAMES_PLACEHOLDER)
  else
    let d := st.cached_result.getD []
    (st, d.foldl (fun acc kv => dictSet acc kv.1 kv.2) extracted, [])

/-- Runs n consecutive NamesExtractor.extract calls on the same instance,
accumulating the store keys read across all calls. -/
def NamesExtractor.iterate (st : NamesExtractor) (r : Reader) (extracted : List (String × Value)) :
    Nat → NamesExtractor × List (String × Value) × List String
  | 0 => (st, extracted, [])
  | n + 1 =>
    let s1 := NamesExtractor.extract st r extracted
    let s2 := NamesExtractor.iterate s1.1 r s1.2.1 n
    (s2.1, s2.2.1, s1.2.2 ++ s2.2.2)

/-! DataExtractor (extractor.py lines 263-285). -/

/-- Embeds DataExtractor.extract for instance fields (categories,
entire_subject) and cached entry_base_names: resolve the entry base names
lazily, then for each category read the subject's data block — whole, or
sliced by the caller's index expression — and write it to the mapping. -/
def DataExtractor.extract (categories : List String) (entire_subject : Bool)
    (cached : Option (List String)) (r : Reader) (subject_index : Nat)
    (index_expr : List (Int × Int)) (extracted : List (String × Value)) :
    Except PyErr ExtractResult :=
  let ebn := resolveEntryBaseNames cached r
  match listIndex ebn subject_index with
  | .error e => .error e
  | .ok base_name =>
    let step := fun (acc : List (String × Value) × List (String × Option (List (Int × Int)))) c =>
      let key := DATA_PLACEHOLDER c ++ "/" ++ base_name
      if entire_subject then
        (dictSet acc.1 c (.vArr (r.arrays key)), acc.2 ++ [(key, none)])
      else
        (dictSet acc.1 c (.vArr (ndarrayRead (r.arrays key) index_expr)), acc.2 ++ [(key, some index_expr)])
    let out := categories.foldl step (extracted, [])
    .ok ⟨some ebn, out.1, out.2⟩

/-! SelectiveDataExtractor (extractor.py lines 154-195). -/

/-- Embeds the Python list comprehension building selection_indices: the
position of every selected name in the stored name list, a ValueError at
the first selected name that is not present. -/
def resolveSelectionIndices (label_names : List String) : List String → Except PyErr (List Nat)
  | [] => .ok []
  | s :: rest =>
    if s ∈ label_names then
      match resolveSelectionIndices label_names rest with
      | .error e => .error e
      | .ok l => .ok (label_names.indexOf s :: l)
    else .error ⟨.valueError, "is not in list"⟩

/-- Embeds SelectiveDataExtractor.extract for instance fields (selection,
category) and cached entry_base_names: require the category's names key in
the mapping, resolve the entry base names lazily, require the category's
data placeholder in the store, read the subject's block sliced by the index
expression, then either write the data unchanged (no selection) or select
the requested name positions along the last axis. -/
def SelectiveDataExtractor.extract (selection : Option (List String)) (category : String)
    (cached : Option (List String)) (r : Reader) (subject_index : Nat)
    (index_expr : List (Int × Int)) (extracted : List (String × Value)) :
    Except PyErr ExtractResult :=
  if !(dictHas extracted (category ++ "_names")) then
    .error ⟨.valueError, "selection of labels requires label_names to be extracted (use NamesExtractor)"⟩
  else
  let ebn := resolveEntryBaseNames cached r
  if !(r.has (DATA_PLACEHOLDER category)) then
    .error ⟨.valueError, "SelectiveDataExtractor requires " ++ category ++ " to exist"⟩
  else
  match listIndex ebn subject_index with
  | .error e => .error e
  | .ok base_name =>
    let key := DATA_PLACEHOLDER category ++ "/" ++ base_name
    let data := ndarrayRead (r.arrays key) index_expr
    match selection with
    | none => .ok ⟨some ebn, dictSet extracted category (.vArr data), [(key, some index_expr)]⟩
    | some sel =>
      match dictGet? extracted (category ++ "_names") with
      | some (.vNames label_names) =>
        match resolveSelectionIndices label_names sel with
        | .error e => .error e
        | .ok idxs =>
          if data.shape.isEmpty then .error ⟨.axisError, "axis -1 is out of bounds"⟩
          else .ok ⟨some ebn, dictSet extracted category (.vArr (npTakeIdxList data idxs)),
                    [(key, some index_expr)]⟩
      | _ => .error ⟨.attributeError, "names value does not support index"⟩

/-! RandomDataExtractor (extractor.py lines 198-242). -/

/-- Embeds RandomDataExtractor.extract for instance fields (selection,
category) and cached entry_base_names; the uniform draw of numpy
random.choice is supplied as an oracle pick that selects a position in the
candidate index list.  Preconditions and the read are identical to
SelectiveDataExtractor.extract (including the error message of the
store-existence check); the chosen entry is then taken with a scalar index
along the last axis. -/
def RandomDataExtractor.extract (selection : Option (List String)) (category : String)
    (cached : Option (List String)) (pick : Nat) (r : Reader) (subject_index : Nat)
    (index_expr : List (Int × Int)) (extracted : List (String × Value)) :
    Except PyErr ExtractResult :=
  if !(dictHas extracted (category ++ "_names")) then
    .error ⟨.valueError, "selection of labels requires label_names to be extracted (use NamesExtractor)"⟩
  else
  let ebn := resolveEntryBaseNames cached r
  if !(r.has (DATA_PLACEHOLDER category)) then
    .error ⟨.valueError, "SelectiveDataExtractor requires " ++ category ++ " to exist"⟩
  else
  match listIndex ebn subject_index with
  | .error e => .error e
  | .ok base_name =>
    let key := DATA_PLACEHOLDER category ++ "/" ++ base_name
    let data := ndarrayRead (r.arrays key) index_expr
    match dictGet? extracted (category ++ "_names") with
    | some (.vNames label_names) =>
      let idxsE : Except PyErr (List Nat) :=
        match selection with
        | none => .ok (List.range label_names.length)
        | some sel => resolveSelectionIndices label_names sel
      match idxsE with
      | .error e => .error e
      | .ok idxs =>
        if idxs.isEmpty then .error ⟨.valueError, "a must be non-empty"⟩
        else if data.shape.isEmpty then .error ⟨.axisError, "axis -1 is out of bounds"⟩
        else
          let random_index := idxs.getD (pick % idxs.length) 0
          .ok ⟨some ebn, dictSet extracted category (.vArr (npTakeScalar data random_index)),
               [(key, some index_expr)]⟩
    | _ => .error ⟨.typeError, "names value has no len"⟩

/-! PadPatchDataExtractor (extractor.py lines 288-329). -/

/-- Padding constructor argument: a plain tuple means a symmetric amount
per dimension, a list holds an explicit (before, after) pair per
dimension. -/
inductive Padding where
  | sym (amounts : List Nat)
  | pairs (amounts : List (Nat × Nat))

/-- Embeds the padding normalization of PadPatchDataExtractor.__init__:
a tuple is expanded to symmetric (pad, pad) pairs, then the first
component of every pair is negated to form index_diffs. -/
def mkIndexDiffs : Padding → List (Int × Int)
  | .sym l => l.map (fun p => (-(p : Int), (p : Int)))
  | .pairs l => l.map (fun p => (-(p.1 : Int), (p.2 : Int)))

/-- State of a PadPatchDataExtractor instance: the constructor categories
and index_diffs together with the mutable entry_base_names cache. -/
structure PadPatchDataExtractor where
  categories : List String
  index_diffs : List (Int × Int)
  entry_base_names : Option (List String)

/-- Embeds PadPatchDataExtractor.__init__. -/
def PadPatchDataExtractor.init (padding : Padding) (categories : List String) :
    PadPatchDataExtractor :=
  ⟨categories, mkIndexDiffs padding, none⟩

/-- Embeds the elementwise numpy addition of the requested index ranges and
the stored index_diffs (extractor.py line 308). -/
def paddedIndexingOf (index_diffs indexing : List (Int × Int)) : List (Int × Int) :=
  List.zipWith (fun (r : Int × Int) (d : Int × Int) => (r.1 + d.1, r.2 + d.2)) indexing index_diffs

/-- Embeds the output buffer construction of PadPatchDataExtractor.extract
(extractor.py lines 323-328): a zero buffer whose spatial shape is the
padded shape and whose trailing dimensions are the read data's trailing
dimensions, with the read data copied in at the destination offsets
(sub_indexing) — positions inside the destination rectangle take the read
data, every other position is zero. -/
def padBuffer (paddedShape : List Nat) (subStart : List Int) (data : NDArray) (k : Nat) :
    NDArray :=
  { shape := paddedShape ++ data.shape.drop k
    get := fun idx =>
      if (List.range k).all (fun d =>
            decide (subStart.getD d 0 ≤ idx.getD d 0 ∧
              idx.getD d 0 < subStart.getD d 0 + ((data.shape.take k).getD d 0 : Int))) then
        data.get ((List.range k).map (fun d => idx.getD d 0 - subStart.getD d 0) ++ idx.drop k)
      else 0 }

/-- Embeds the per-array body of PadPatchDataExtractor.extract
(extractor.py lines 308-328): offset the requested ranges by index_diffs
to the padded ranges, take their widths as the padded output shape, derive
the destination offsets as the amount each padded lower bound fell below
zero, clip the padded ranges at zero, read the clipped ranges from the
source, and copy the read data into a zero buffer of the padded shape at
the destination offsets.  none encodes the numpy error conditions: a
range/padding length mismatch (broadcast error), more ranges than source
dimensions, a negative output dimension, or a destination slice whose
clamped extent does not match the read data's extent. -/
def padPatchCompute (index_diffs indexing : List (Int × Int)) (src : NDArray) :
    Option NDArray :=
  if indexing.length ≠ index_diffs.length then none
  else if src.shape.length < indexing.length then none
  else
    let padded := paddedIndexingOf index_diffs indexing
    if padded.any (fun q => q.2 - q.1 < 0) then none
    else
      let k := indexing.length
      let paddedShape : List Nat := padded.map (fun q => (q.2 - q.1).toNat)
      let subStart : List Int := padded.map (fun q => -(min q.1 0))
      let clipped := padded.map (fun q => (max q.1 0, max q.2 0))
      let data := ndarrayRead src clipped
      if (List.range k).all (fun d =>
            decide (min ((subStart.getD d 0).toNat + (data.shape.take k).getD d 0)
                (paddedShape.getD d 0)
              - min (subStart.getD d 0).toNat (paddedShape.getD d 0)
              = (data.shape.take k).getD d 0)) then
        some (padBuffer paddedShape subStart data k)
      else none

/-- Embeds PadPatchDataExtractor.extract: resolve the entry base names
lazily, then for every category read the padded patch out of the
category's data block for the subject and write the zero-padded buffer to
the mapping.  Returns the instance state after the call and the updated
mapping. -/
def PadPatchDataExtractor.extract (st : PadPatchDataExtractor) (r : Reader) (subject_index : Nat)
    (index_expr : List (Int × Int)) (extracted : List (String × Value)) :
    Except PyErr (PadPatchDataExtractor × List (String × Value)) :=
  let ebn := resolveEntryBaseNames st.entry_base_names r
  match listIndex ebn subject_index with
  | .error e => .error e
  | .ok base_name =>
    match st.categories.foldlM
        (fun acc c =>
          match padPatchCompute st.index_diffs index_expr
              (r.arrays (DATA_PLACEHOLDER c ++ "/" ++ base_name)) with
          | some arr => Except.ok (dictSet acc c (.vArr arr))
          | none => Except.error (⟨.valueError, "numpy shape or broadcast error"⟩ : PyErr))
        extracted with
    | .error e => .error e
    | .ok ex => .ok ({ st with entry_base_names := some ebn }, ex)

/-! SubjectFileTraverser (traverser.py). -/

/-- Modelled from the spec: SubjectFile of miapy.data.subjectfile (not
under src) — a per-subject bundle of an identifier, named sequence files
(an ordered dict, exposed to the traverser through get_sequences) and
optional named ground-truth files (label_images). -/
structure SubjectFileData where
  subject : String
  images : List (String × String)
  label_images : Option (List (String × String))
deriving DecidableEq

/-- Runtime element of the traverser's input list: either an actual
SubjectFile, or a value of some other type (which has none of the
SubjectFile attributes). -/
inductive FileEntry where
  | sf (s : SubjectFileData)
  | otherType (tag : String)
deriving DecidableEq

/-- Whether a runtime input element is a SubjectFile (Python isinstance). -/
def FileEntry.isSf : FileEntry → Bool
  | .sf _ => true
  | .otherType _ => false

/-- Modelled from the spec: the external image Loader (spec section 6);
load_image and load_image_labels decode a file into an opaque image
handle, get_ndarray converts a handle to an array. -/
structure Loader where
  load_image : String → String → String
  load_image_labels : String → String → String
  get_ndarray : String → NDArray

/-- Key list of an ordered dict. -/
def keysOf (l : List (String × String)) : List String := l.map (·.1)

/-- Python dict keys view equality: comparison as sets. -/
def keySetEq (a b : List String) : Bool :=
  a.all (fun x => b.contains x) && b.all (fun x => a.contains x)

/-- Embeds default_concat of traverser.py: a single array passes through
unchanged, otherwise the arrays are stacked along a new trailing axis. -/
def default_concat (data : List NDArray) : Option NDArray :=
  if data.length == 1 then some (data.getD 0 default) else npStack data

/-- Embeds the consistency check inside _get_sequence_names: every element
must expose the same sequence key set as the first subject; an element of
a foreign type fails with AttributeError when its images attribute is
accessed, a subject with a differing key set fails with the ValueError of
line 99. -/
def checkSeqNames (seq0 : List String) : List FileEntry → Except PyErr Unit
  | [] => .ok ()
  | .sf s :: rest =>
    if keySetEq (keysOf s.images) seq0 then checkSeqNames seq0 rest
    else .error ⟨.valueError, "inconsistent sequence names in the subject list"⟩
  | .otherType _ :: _ => .error ⟨.attributeError, "object has no attribute images"⟩

/-- Embeds SubjectFileTraverser._get_sequence_names: take the first
subject's sequence key list and require every element to match it. -/
def getSequenceNames (files : List FileEntry) : Except PyErr (List String) :=
  match files.head? with
  | some (.sf s0) =>
    match checkSeqNames (keysOf s0.images) files with
    | .error e => .error e
    | .ok _ => .ok (keysOf s0.images)
  | _ => .error ⟨.attributeError, "object has no attribute images"⟩

/-- Embeds the all-None branch of _get_gt_names: every element's
label_images must also be None; a present dict fails with the ValueError
of line 106, a foreign type with AttributeError. -/
def checkGtNone : List FileEntry → Except PyErr Unit
  | [] => .ok ()
  | .sf s :: rest =>
    match s.label_images with
    | none => checkGtNone rest
    | some _ => .error ⟨.valueError, "inconsistent gt names in the subject list"⟩
  | .otherType _ :: _ => .error ⟨.attributeError, "object has no attribute label_images"⟩

/-- Embeds the keyed branch of _get_gt_names: every element must expose
the same ground-truth key set as the first subject; a None label_images
fails with AttributeError (keys called on None), a differing key set with
the ValueError of line 110, a foreign type with AttributeError. -/
def checkGtNames (gts0 : List String) : List FileEntry → Except PyErr Unit
  | [] => .ok ()
  | .sf s :: rest =>
    match s.label_images with
    | none => .error ⟨.attributeError, "NoneType has no attribute keys"⟩
    | some l =>
      if keySetEq (keysOf l) gts0 then checkGtNames gts0 rest
      else .error ⟨.valueError, "inconsistent gt names in the subject list"⟩
  | .otherType _ :: _ => .error ⟨.attributeError, "object has no attribute label_images"⟩

/-- Embeds SubjectFileTraverser._get_gt_names. -/
def getGtNames (files : List FileEntry) : Except PyErr (List String) :=
  match files.head? with
  | some (.sf s0) =>
    match s0.label_images with
    | none =>
      match checkGtNone files with
      | .error e => .error e
      | .ok _ => .ok []
    | some l0 =>
      match checkGtNames (keysOf l0) files with
      | .error e => .error e
      | .ok _ => .ok (keysOf l0)
  | _ => .error ⟨.attributeError, "object has no attribute label_images"⟩

/-- Observable step of a traversal: a callback hook firing or a Loader
invocation, with the scalar parts of its payload. -/
inductive TEvent where
  | onStart
  | onSubjectStart (subject : String) (subjectIndex : Nat)
  | loadImage (file : String) (name : String)
  | onImageFile (subject : String) (subjectIndex : Nat) (sequence : String)
      (sequenceIndex : Nat) (file : String)
  | loadImageLabels (file : String) (name : String)
  | onGtFile (subject : String) (subjectIndex : Nat) (gt : String)
      (gtIndex : Nat) (file : String)
  | onSubjectEnd (subject : String) (subjectIndex : Nat)
  | onEnd
deriving DecidableEq, Repr

/-- Per-subject payload handed to the transform and then merged into the
on_subject_end callback parameters. -/
structure SubjPayload where
  subject : String
  subject_index : Nat
  images : NDArray
  labels : Option NDArray

/-- Outcome of a traversal: the ordered event trace, the per-subject
on_subject_end payloads, and the error that aborted the run, if any. -/
structure TraverseOut where
  events : List TEvent
  payloads : List SubjPayload
  error : Option PyErr

/-- Fills the slot of one loaded sequence array at its position in the
name order of the first subject (subject_sequences[sequence_to_index[s]]
assignment); a name outside the order dict is a Python KeyError. -/
def fillSlot (slots : List (Option NDArray)) (pos : Nat) (a : NDArray) :
    List (Option NDArray) :=
  slots.set pos (some a)

/-- Embeds the per-subject sequence loop (traverser.py lines 58-67): load
every named sequence file in the subject's own dict order, place the array
at the position given by the first subject's name order, and fire the
on_image_file hook after each load. -/
def runSeqLoop (loader : Loader) (seqNames : List String) (subject : String)
    (subjectIndex : Nat) :
    List (String × String) → List (Option NDArray) → List TEvent →
    Except PyErr (List (Option NDArray) × List TEvent)
  | [], slots, evs => .ok (slots, evs)
  | (sequence, sequence_file) :: rest, slots, evs =>
    if seqNames.contains sequence then
      let img := loader.load_image sequence_file sequence
      let arr := loader.get_ndarray img
      let pos := seqNames.indexOf sequence
      runSeqLoop loader seqNames subject subjectIndex rest
        (fillSlot slots pos arr)
        (evs ++ [.loadImage sequence_file sequence,
                 .onImageFile subject subjectIndex sequence pos sequence_file])
    else .error ⟨.keyError, sequence⟩

/-- Embeds the per-subject ground-truth loop (traverser.py lines 73-81). -/
def runGtLoop (loader : Loader) (gtNames : List String) (subject : String)
    (subjectIndex : Nat) :
    List (String × String) → List (Option NDArray) → List TEvent →
    Except PyErr (List (Option NDArray) × List TEvent)
  | [], slots, evs => .ok (slots, evs)
  | (gt, gt_file) :: rest, slots, evs =>
    if gtNames.contains gt then
      let img := loader.load_image_labels gt_file gt
      let arr := loader.get_ndarray img
      let pos := gtNames.indexOf gt
      runGtLoop loader gtNames subject subjectIndex rest
        (fillSlot slots pos arr)
        (evs ++ [.loadImageLabels gt_file gt,
                 .onGtFile subject subjectIndex gt pos gt_file])
    else .error ⟨.keyError, gt⟩

/-- Concatenation of the filled slots: every slot must have been filled by
the loop (the Python list holds no None left when the key sets matched),
then default_concat combines them; a remaining None or a numpy stack
failure is an error. -/
def concatSlots (slots : List (Option NDArray)) : Except PyErr NDArray :=
  if slots.all Option.isSome then
    match default_concat (slots.filterMap id) with
    | some a => .ok a
    | none => .error ⟨.valueError, "need at least one array to stack"⟩
  else .error ⟨.typeError, "expected ndarray, got NoneType"⟩

/-- Embeds the body of the subject loop of SubjectFileTraverser.traverse
(lines 52-90) over the remaining subjects, accumulating events and
payloads. -/
def runSubjects (loader : Loader) (transform : Option (SubjPayload → SubjPayload))
    (seqNames gtNames : List String) (has_gt : Bool) :
    List FileEntry → Nat → List TEvent → List SubjPayload → TraverseOut
  | [], _, evs, pays => { events := evs ++ [.onEnd], payloads := pays, error := none }
  | .otherType _ :: _, _, evs, pays =>
    { events := evs, payloads := pays,
      error := some ⟨.attributeError, "object has no attribute subject"⟩ }
  | .sf s :: rest, subjectIndex, evs, pays =>
    let evs1 := evs ++ [.onSubjectStart s.subject subjectIndex]
    match runSeqLoop loader seqNames s.subject subjectIndex s.images
        (List.replicate seqNames.length none) evs1 with
    | .error e => { events := evs1, payloads := pays, error := some e }
    | .ok (slots, evs2) =>
      match concatSlots slots with
      | .error e => { events := evs2, payloads := pays, error := some e }
      | .ok np_sequences =>
        let payload0 : SubjPayload :=
          { subject := s.subject, subject_index := subjectIndex,
            images := np_sequences, labels := none }
        let gtStep : Except PyErr (SubjPayload × List TEvent) :=
          if has_gt then
            match runGtLoop loader gtNames s.subject subjectIndex
                (s.label_images.getD []) (List.replicate gtNames.length none) evs2 with
            | .error e => .error e
            | .ok (gtSlots, evs3) =>
              match concatSlots gtSlots with
              | .error e => .error e
              | .ok np_gts => .ok ({ payload0 with labels := some np_gts }, evs3)
          else .ok (payload0, evs2)
        match gtStep with
        | .error e => { events := evs2, payloads := pays, error := some e }
        | .ok (payload1, evs3) =>
          let payload2 := match transform with
            | some t => t payload1
            | none => payload1
          runSubjects loader transform seqNames gtNames has_gt rest (subjectIndex + 1)
            (evs3 ++ [.onSubjectEnd s.subject subjectIndex]) (pays ++ [payload2])

/-- Embeds SubjectFileTraverser.traverse with the default concat function:
reject an empty list, reject a first element that is not a SubjectFile,
derive the sequence and ground-truth names with their consistency checks,
fire on_start, process every subject, and fire on_end.  Every error keeps
the events and payloads accumulated before it was raised. -/
def SubjectFileTraverser.traverse (files : List FileEntry) (loader : Loader)
    (transform : Option (SubjPayload → SubjPayload)) : TraverseOut :=
  if files.length = 0 then
    { events := [], payloads := [], error := some ⟨.valueError, "No files"⟩ }
  else if !(files.getD 0 (.otherType "")).isSf then
    { events := [], payloads := [],
      error := some ⟨.valueError, "files must be of type SubjectFile"⟩ }
  else
    match getSequenceNames files with
    | .error e => { events := [], payloads := [], error := some e }
    | .ok seqNames =>
      match getGtNames files with
      | .error e => { events := [], payloads := [], error := some e }
      | .ok gtNames =>
        let has_gt := gtNames.length > 0
        runSubjects loader transform seqNames gtNames has_gt files 0 [.onStart] []

/-- Whether an extract call completed without raising. -/
def exceptIsOk : Except PyErr α → Bool
  | .ok _ => true
  | .error _ => false

/-- The exception class of a failed extract call, if it failed. -/
def exceptErrKind : Except PyErr α → Option ErrKind
  | .ok _ => none
  | .error e => some e.kind

/-- Inconsistency of two subjects' ground-truth name sets as checked by
_get_gt_names: the first subject has no label dict while the second has
one, or the first has a label dict and the second either has none or has
a different key set. -/
def gtNamesMismatch (s0 s : SubjectFileData) : Prop :=
  (s0.label_images = none ∧ s.label_images ≠ none) ∨
  (∃ l0, s0.label_images = some l0 ∧
    (s.label_images = none ∨
      ∃ l, s.label_images = some l ∧ keySetEq (keysOf l) (keysOf l0) = false))

/-! Theorems. -/

theorem namesExtract_cached_no_reads (cats : List String) (d : List (String × Value))
    (r : Reader) (e : List (String × Value)) (n : Nat) :
    (NamesExtractor.iterate ⟨true, some d, cats⟩ r e n).2.2 = [] := by
  induction n generalizing e with
  | zero => rfl
  | succ m ih =>
    simp only [NamesExtractor.iterate, NamesExtractor.extract]
    simp [ih]

theorem namesExtract_uncached_reads (cats : List String) (c0 : Option (List (String × Value)))
    (r : Reader) (e : List (String × Value)) (n : Nat) :
    (NamesExtractor.iterate ⟨false, c0, cats⟩ r e n).2.2 =
      (List.replicate n (cats.map NAMES_PLACEHOLDER)).flatten := by
  induction n generalizing e c0 with
  | zero => rfl
  | succ m ih =>
    simp only [NamesExtractor.iterate, NamesExtractor.extract]
    simp only [List.replicate_succ, List.flatten_cons]
    simp [ih]

/-- C8: a NamesExtractor instance constructed with cache=True issues, over
any number n ≥ 1 of extract calls, exactly one store read per configured
category (the category's names key, once, across all calls); constructed
with cache=False it issues one read per configured category on every
call. -/
theorem C8_names_extractor_read_counts (cats : List String) (r : Reader)
    (e : List (String × Value)) (n : Nat) (hn : 1 ≤ n) :
    ((NamesExtractor.init true cats).iterate r e n).2.2 = cats.map NAMES_PLACEHOLDER ∧
    ((NamesExtractor.init false cats).iterate r e n).2.2 =
      (List.replicate n (cats.map NAMES_PLACEHOLDER)).flatten := by
  constructor
  · obtain ⟨m, rfl⟩ : ∃ m, n = m + 1 := ⟨n - 1, by omega⟩
    simp only [NamesExtractor.init, NamesExtractor.iterate, NamesExtractor.extract]
    simp [namesExtract_cached_no_reads]
  · exact namesExtract_uncached_reads cats none r e n

/-- Witness for C8 at a concrete instance: two calls with two categories. -/
theorem C8_names_extractor_read_counts_witness :
    1 ≤ 2 ∧
    (((NamesExtractor.init true ["images", "labels"]).iterate
        ⟨fun _ => default, fun _ => .vNames [], fun _ => true, []⟩ [] 2).2.2 =
      ["images", "labels"].map NAMES_PLACEHOLDER ∧
     ((NamesExtractor.init false ["images", "labels"]).iterate
        ⟨fun _ => default, fun _ => .vNames [], fun _ => true, []⟩ [] 2).2.2 =
      (List.replicate 2 (["images", "labels"].map NAMES_PLACEHOLDER)).flatten) :=
  ⟨by decide,
   C8_names_extractor_read_counts ["images", "labels"]
     ⟨fun _ => default, fun _ => .vNames [], fun _ => true, []⟩ [] 2 (by decide)⟩

/-- C7: default_concat returns a single sequence's array unchanged (no
singleton channel axis), and stacks two or more equally shaped sequence
arrays along a new trailing channel axis — the output shape appends the
sequence count, and the last index coordinate selects the sequence. -/
theorem C7_default_concat_channels (a : NDArray) (l : List NDArray)
    (hlen : 2 ≤ l.length) (hsh : ∀ b ∈ l, b.shape = (l.getD 0 default).shape) :
    default_concat [a] = some a ∧
    ∃ out, default_concat l = some out ∧
      out.shape = (l.getD 0 default).shape ++ [l.length] ∧
      ∀ (idx : List Int) (c : Nat), c < l.length →
        out.get (idx ++ [(c : Int)]) = (l.getD c default).get idx := by
  refine ⟨by simp [default_concat], ?_⟩
  match l, hlen with
  | x :: xs, hlen2 =>
    have hall : xs.all (fun b => b.shape == x.shape) := by
      simp only [List.all_eq_true, beq_iff_eq]
      intro b hb
      simpa using hsh b (List.mem_cons_of_mem _ hb)
    refine ⟨{ shape := x.shape ++ [(x :: xs).length],
              get := fun idx =>
                ((x :: xs).getD (idx.getLast?.getD 0).toNat default).get idx.dropLast },
            ?_, ?_, ?_⟩
    · have hne : (x :: xs).length ≠ 1 := by
        simp only [List.length_cons] at hlen2 ⊢; omega
      simp only [default_concat, npStack, hall, if_true]
      rw [if_neg (by simpa using hne)]
    · simp
    · intro idx c hc
      simp only [List.getLast?_concat, List.dropLast_concat, Option.getD_some, Int.toNat_natCast]

/-- Witness for C7 at concrete arrays: a pass-through singleton and a
stacked pair of equally shaped arrays. -/
theorem C7_default_concat_channels_witness :
    (2 ≤ ([(⟨[3], fun _ => 5⟩ : NDArray), ⟨[3], fun _ => 7⟩] : List NDArray).length) ∧
    (∀ b ∈ ([(⟨[3], fun _ => 5⟩ : NDArray), ⟨[3], fun _ => 7⟩] : List NDArray),
      b.shape = (([(⟨[3], fun _ => 5⟩ : NDArray), ⟨[3], fun _ => 7⟩] :
        List NDArray).getD 0 default).shape) ∧
    (default_concat [(⟨[3], fun _ => 9⟩ : NDArray)] = some ⟨[3], fun _ => 9⟩ ∧
     ∃ out, default_concat ([(⟨[3], fun _ => 5⟩ : NDArray), ⟨[3], fun _ => 7⟩]) = some out ∧
       out.shape = (([(⟨[3], fun _ => 5⟩ : NDArray), ⟨[3], fun _ => 7⟩] :
         List NDArray).getD 0 default).shape ++
         [([(⟨[3], fun _ => 5⟩ : NDArray), ⟨[3], fun _ => 7⟩] : List NDArray).length] ∧
       ∀ (idx : List Int) (c : Nat),
         c < ([(⟨[3], fun _ => 5⟩ : NDArray), ⟨[3], fun _ => 7⟩] : List NDArray).length →
         out.get (idx ++ [(c : Int)]) =
           (([(⟨[3], fun _ => 5⟩ : NDArray), ⟨[3], fun _ => 7⟩] :
             List NDArray).getD c default).get idx) :=
  ⟨by decide, by decide,
   C7_default_concat_channels ⟨[3], fun _ => 9⟩
     [⟨[3], fun _ => 5⟩, ⟨[3], fun _ => 7⟩] (by decide) (by decide)⟩

/-- Counterexample to C3: with the category's names key absent from the
result mapping, SelectiveDataExtractor constructed with selection none
raises while DataExtractor with the same single category succeeds, so the
two are not observationally identical for every result mapping. -/
theorem C3_counterexample_names_precondition :
    exceptIsOk (SelectiveDataExtractor.extract none "images" none
      ⟨fun _ => default, fun _ => .vNames [], fun _ => true, ["g/s0"]⟩ 0 [(0, 1)] []) = false ∧
    exceptIsOk (DataExtractor.extract ["images"] false none
      ⟨fun _ => default, fun _ => .vNames [], fun _ => true, ["g/s0"]⟩ 0 [(0, 1)] []) = true :=
  ⟨rfl, rfl⟩

/-- C3 amended: when the category's names key is already present in the
result mapping and the store has the category's data placeholder,
SelectiveDataExtractor with selection none is observationally identical to
DataExtractor with the single category — the same cache resolution, the
same mapping writes, the same ranged reads, and the same error exactly
when DataExtractor errors. -/
theorem C3_selective_none_refines_data (category : String)
    (cached : Option (List String)) (r : Reader) (subject_index : Nat)
    (index_expr : List (Int × Int)) (extracted : List (String × Value))
    (hnames : dictHas extracted (category ++ "_names") = true)
    (hhas : r.has (DATA_PLACEHOLDER category) = true) :
    SelectiveDataExtractor.extract none category cached r subject_index index_expr extracted =
      DataExtractor.extract [category] false cached r subject_index index_expr extracted := by
  unfold SelectiveDataExtractor.extract DataExtractor.extract
  simp only [hnames, hhas, Bool.not_true, Bool.false_eq_true, if_false]
  cases h : listIndex (resolveEntryBaseNames cached r) subject_index with
  | error e => simp [h]
  | ok base_name => simp [h]

/-- Witness for C3 amended at a concrete store and mapping holding the
names key. -/
theorem C3_selective_none_refines_data_witness :
    dictHas [("images_names", Value.vNames ["T1"])] ("images" ++ "_names") = true ∧
    (Reader.has ⟨fun _ => default, fun _ => .vNames [], fun _ => true, ["g/s0"]⟩
      (DATA_PLACEHOLDER "images") = true) ∧
    SelectiveDataExtractor.extract none "images" none
        ⟨fun _ => default, fun _ => .vNames [], fun _ => true, ["g/s0"]⟩ 0 [(0, 1)]
        [("images_names", Value.vNames ["T1"])] =
      DataExtractor.extract ["images"] false none
        ⟨fun _ => default, fun _ => .vNames [], fun _ => true, ["g/s0"]⟩ 0 [(0, 1)]
        [("images_names", Value.vNames ["T1"])] :=
  ⟨rfl, rfl,
   C3_selective_none_refines_data "images" none
     ⟨fun _ => default, fun _ => .vNames [], fun _ => true, ["g/s0"]⟩ 0 [(0, 1)]
     [("images_names", Value.vNames ["T1"])] rfl rfl⟩

/-- Counterexample to C4: the error raised for a missing upstream names
key and the error raised for a missing store path have the same exception
kind (both are ValueError), not two distinct kinds. -/
theorem C4_counterexample_same_error_kind :
    exceptErrKind (SelectiveDataExtractor.extract none "labels" none
      ⟨fun _ => default, fun _ => .vNames [], fun _ => true, ["g/s0"]⟩ 0 [(0, 1)] []) =
        some ErrKind.valueError ∧
    exceptErrKind (SelectiveDataExtractor.extract none "labels" none
      ⟨fun _ => default, fun _ => .vNames [], fun _ => false, ["g/s0"]⟩ 0 [(0, 1)]
      [("labels_names", Value.vNames ["GT"])]) = some ErrKind.valueError ∧
    exceptErrKind (SelectiveDataExtractor.extract none "labels" none
      ⟨fun _ => default, fun _ => .vNames [], fun _ => true, ["g/s0"]⟩ 0 [(0, 1)] []) =
    exceptErrKind (SelectiveDataExtractor.extract none "labels" none
      ⟨fun _ => default, fun _ => .vNames [], fun _ => false, ["g/s0"]⟩ 0 [(0, 1)]
      [("labels_names", Value.vNames ["GT"])]) :=
  ⟨rfl, rfl, rfl⟩

theorem ndarrayRead_shape_length (src : NDArray) (rs : List (Int × Int)) :
    (ndarrayRead src rs).shape.length = src.shape.length := by
  simp only [ndarrayRead, List.length_append, List.length_map, List.length_zipWith,
    List.length_take, List.length_drop]
  omega

/-- C4 amended: the extractors requiring an upstream key
(SelectiveDataExtractor and RandomDataExtractor) raise ValueError when the
category's names key is absent from the result mapping, raise ValueError —
the same exception kind, distinguished only by its message — when the
category's store path does not exist, and do not raise for a sample that
exists (names key present with a name list, store path present, subject
index in range, non-scalar stored data, and — for the random draw — a
non-empty name list). -/
theorem C4_upstream_and_store_errors_are_value_errors (category : String)
    (sel : Option (List String)) (cached : Option (List String)) (pick : Nat)
    (r : Reader) (subject_index : Nat) (index_expr : List (Int × Int))
    (extracted : List (String × Value)) :
    (dictHas extracted (category ++ "_names") = false →
      exceptErrKind (SelectiveDataExtractor.extract sel category cached r subject_index
        index_expr extracted) = some ErrKind.valueError ∧
      exceptErrKind (RandomDataExtractor.extract sel category cached pick r subject_index
        index_expr extracted) = some ErrKind.valueError) ∧
    (dictHas extracted (category ++ "_names") = true →
      r.has (DATA_PLACEHOLDER category) = false →
      exceptErrKind (SelectiveDataExtractor.extract sel category cached r subject_index
        index_expr extracted) = some ErrKind.valueError ∧
      exceptErrKind (RandomDataExtractor.extract sel category cached pick r subject_index
        index_expr extracted) = some ErrKind.valueError) ∧
    (∀ ns, dictGet? extracted (category ++ "_names") = some (.vNames ns) →
      dictHas extracted (category ++ "_names") = true →
      ns ≠ [] →
      r.has (DATA_PLACEHOLDER category) = true →
      subject_index < (resolveEntryBaseNames cached r).length →
      (∀ k, (r.arrays k).shape ≠ []) →
      exceptIsOk (SelectiveDataExtractor.extract none category cached r subject_index
        index_expr extracted) = true ∧
      exceptIsOk (RandomDataExtractor.extract none category cached pick r subject_index
        index_expr extracted) = true) := by
  refine ⟨?_, ?_, ?_⟩
  · intro hmiss
    unfold SelectiveDataExtractor.extract RandomDataExtractor.extract
    simp [hmiss, exceptErrKind]
  · intro hnames hhas
    unfold SelectiveDataExtractor.extract RandomDataExtractor.extract
    simp [hnames, hhas, exceptErrKind]
  · intro ns hget hnames hne hhas hsub hshape
    unfold SelectiveDataExtractor.extract RandomDataExtractor.extract
    simp only [hnames, hhas, Bool.not_true, Bool.false_eq_true, if_false, if_true,
      Bool.not_false, Bool.true_eq_false]
    rw [listIndex, dif_pos hsub]
    simp only [hget]
    have hle : ns.length ≠ 0 := by
      intro h0
      exact hne (List.eq_nil_of_length_eq_zero h0)
    have hsh := hshape (DATA_PLACEHOLDER category ++ "/" ++
      (resolveEntryBaseNames cached r)[subject_index])
    have hsh2 : (ndarrayRead (r.arrays (DATA_PLACEHOLDER category ++ "/" ++
        (resolveEntryBaseNames cached r)[subject_index])) index_expr).shape ≠ [] := by
      rw [Ne, ← List.length_eq_zero, ndarrayRead_shape_length]
      rw [Ne, ← List.length_eq_zero] at hsh
      exact hsh
    simp [exceptIsOk, List.isEmpty_iff, hle, hsh2]

/-- Witness for C4 at a concrete store with every precondition satisfied:
neither extractor raises for the existing sample. -/
theorem C4_upstream_and_store_errors_are_value_errors_witness :
    exceptIsOk (SelectiveDataExtractor.extract none "labels" none
      ⟨fun _ => ⟨[4], fun _ => 0⟩, fun _ => .vNames [], fun _ => true, ["g/s0"]⟩ 0 [(0, 1)]
      [("labels_names", Value.vNames ["GT"])]) = true ∧
    exceptIsOk (RandomDataExtractor.extract none "labels" none 0
      ⟨fun _ => ⟨[4], fun _ => 0⟩, fun _ => .vNames [], fun _ => true, ["g/s0"]⟩ 0 [(0, 1)]
      [("labels_names", Value.vNames ["GT"])]) = true :=
  (C4_upstream_and_store_errors_are_value_errors "labels" none none 0
      ⟨fun _ => ⟨[4], fun _ => 0⟩, fun _ => .vNames [], fun _ => true, ["g/s0"]⟩ 0 [(0, 1)]
      [("labels_names", Value.vNames ["GT"])]).2.2
    ["GT"] rfl rfl (by decide) rfl (by decide)
    (fun _ => by simp only [Reader.arrays]; decide)

theorem dictGet?_dictSet (d : List (String × Value)) (k : String) (v : Value) :
    dictGet? (dictSet d k v) k = some v := by
  unfold dictSet dictGet?
  by_cases h : d.any (fun p => p.1 == k)
  · simp only [h, if_true]
    induction d with
    | nil => simp at h
    | cons p rest ih =>
      by_cases hp : p.1 == k
      · simp only [List.map_cons, hp, if_true]
        rw [List.find?_cons_of_pos _ (by simp)]
        rfl
      · simp only [List.any_cons, hp, Bool.false_or] at h
        simp only [List.map_cons, hp, Bool.false_eq_true, if_false]
        rw [List.find?_cons_of_neg _ (by simpa using hp)]
        exact ih h
  · simp only [h, if_false, Bool.false_eq_true]
    rw [List.find?_append]
    have hnone : d.find? (fun p => p.1 == k) = none := by
      rw [List.find?_eq_none]
      intro p hp
      simp only [List.any_eq_true, not_exists, not_and] at h
      simpa using h p hp
    simp [hnone]

/-- C10: on the same stored data and category, RandomDataExtractor writes
an array with one fewer trailing dimension than the read data (a scalar
take along the last axis), whereas SelectiveDataExtractor with a one-name
selection keeps a trailing axis of size 1. -/
theorem C10_random_drops_axis_selective_keeps_singleton (category nm : String)
    (ns : List String) (cached : Option (List String)) (pick : Nat) (r : Reader)
    (subject_index : Nat) (index_expr : List (Int × Int))
    (extracted : List (String × Value))
    (hget : dictGet? extracted (category ++ "_names") = some (.vNames ns))
    (hnames : dictHas extracted (category ++ "_names") = true)
    (hne : ns ≠ []) (hmem : nm ∈ ns)
    (hhas : r.has (DATA_PLACEHOLDER category) = true)
    (hsub : subject_index < (resolveEntryBaseNames cached r).length)
    (hshape : ∀ k, (r.arrays k).shape ≠ []) :
    ∃ res1 res2 a1 a2,
      RandomDataExtractor.extract none category cached pick r subject_index
        index_expr extracted = .ok res1 ∧
      SelectiveDataExtractor.extract (some [nm]) category cached r subject_index
        index_expr extracted = .ok res2 ∧
      dictGet? res1.extracted category = some (.vArr a1) ∧
      dictGet? res2.extracted category = some (.vArr a2) ∧
      a1.shape = (ndarrayRead (r.arrays (DATA_PLACEHOLDER category ++ "/" ++
        (resolveEntryBaseNames cached r)[subject_index])) index_expr).shape.dropLast ∧
      a1.shape.length + 1 = (ndarrayRead (r.arrays (DATA_PLACEHOLDER category ++ "/" ++
        (resolveEntryBaseNames cached r)[subject_index])) index_expr).shape.length ∧
      a2.shape = (ndarrayRead (r.arrays (DATA_PLACEHOLDER category ++ "/" ++
        (resolveEntryBaseNames cached r)[subject_index])) index_expr).shape.dropLast ++ [1] := by
  have hsh := hshape (DATA_PLACEHOLDER category ++ "/" ++
    (resolveEntryBaseNames cached r)[subject_index])
  have hsh2 : (ndarrayRead (r.arrays (DATA_PLACEHOLDER category ++ "/" ++
      (resolveEntryBaseNames cached r)[subject_index])) index_expr).shape ≠ [] := by
    rw [Ne, ← List.length_eq_zero, ndarrayRead_shape_length]
    rw [Ne, ← List.length_eq_zero] at hsh
    exact hsh
  have hle : ns.length ≠ 0 := by
    intro h0
    exact hne (List.eq_nil_of_length_eq_zero h0)
  have hres : resolveSelectionIndices ns [nm] = .ok [ns.indexOf nm] := by
    simp [resolveSelectionIndices, hmem]
  unfold RandomDataExtractor.extract SelectiveDataExtractor.extract
  simp only [hnames, hhas, Bool.not_true, Bool.false_eq_true, if_false, if_true,
    Bool.not_false, Bool.true_eq_false]
  rw [listIndex, dif_pos hsub]
  simp only [hget, hres]
  rw [if_neg (by simpa using hle), if_neg (by simpa [List.isEmpty_iff] using hsh2),
    if_neg (by simpa [List.isEmpty_iff] using hsh2)]
  refine ⟨_, _, _, _, rfl, rfl, dictGet?_dictSet _ _ _, dictGet?_dictSet _ _ _, rfl, ?_, rfl⟩
  simp only [npTakeScalar, List.length_dropLast]
  rw [Ne, ← List.length_eq_zero] at hsh2
  simp only [List.get_eq_getElem] at hsh2 ⊢
  omega

/-- Witness for C10 at a concrete two-dimensional stored block with two
label names. -/
theorem C10_random_drops_axis_selective_keeps_singleton_witness :
    ∃ res1 res2 a1 a2,
      RandomDataExtractor.extract none "labels" none 1
        ⟨fun _ => ⟨[4, 2], fun _ => 0⟩, fun _ => .vNames [], fun _ => true, ["g/s0"]⟩ 0
        [(0, 2)] [("labels_names", Value.vNames ["GT", "BG"])] = .ok res1 ∧
      SelectiveDataExtractor.extract (some ["GT"]) "labels" none
        ⟨fun _ => ⟨[4, 2], fun _ => 0⟩, fun _ => .vNames [], fun _ => true, ["g/s0"]⟩ 0
        [(0, 2)] [("labels_names", Value.vNames ["GT", "BG"])] = .ok res2 ∧
      dictGet? res1.extracted "labels" = some (.vArr a1) ∧
      dictGet? res2.extracted "labels" = some (.vArr a2) ∧
      a1.shape = (ndarrayRead (Reader.arrays
        ⟨fun _ => ⟨[4, 2], fun _ => 0⟩, fun _ => .vNames [], fun _ => true, ["g/s0"]⟩
        (DATA_PLACEHOLDER "labels" ++ "/" ++
          (resolveEntryBaseNames none
            ⟨fun _ => ⟨[4, 2], fun _ => 0⟩, fun _ => .vNames [], fun _ => true,
             ["g/s0"]⟩).getD 0 "")) [(0, 2)]).shape.dropLast ∧
      a1.shape.length + 1 = (ndarrayRead (Reader.arrays
        ⟨fun _ => ⟨[4, 2], fun _ => 0⟩, fun _ => .vNames [], fun _ => true, ["g/s0"]⟩
        (DATA_PLACEHOLDER "labels" ++ "/" ++
          (resolveEntryBaseNames none
            ⟨fun _ => ⟨[4, 2], fun _ => 0⟩, fun _ => .vNames [], fun _ => true,
             ["g/s0"]⟩).getD 0 "")) [(0, 2)]).shape.length ∧
      a2.shape = (ndarrayRead (Reader.arrays
        ⟨fun _ => ⟨[4, 2], fun _ => 0⟩, fun _ => .vNames [], fun _ => true, ["g/s0"]⟩
        (DATA_PLACEHOLDER "labels" ++ "/" ++
          (resolveEntryBaseNames none
            ⟨fun _ => ⟨[4, 2], fun _ => 0⟩, fun _ => .vNames [], fun _ => true,
             ["g/s0"]⟩).getD 0 "")) [(0, 2)]).shape.dropLast ++ [1] := by
  have h := C10_random_drops_axis_selective_keeps_singleton "labels" "GT" ["GT", "BG"]
    none 1 ⟨fun _ => ⟨[4, 2], fun _ => 0⟩, fun _ => .vNames [], fun _ => true, ["g/s0"]⟩
    0 [(0, 2)] [("labels_names", Value.vNames ["GT", "BG"])]
    rfl rfl (by decide) (by decide) rfl (by decide)
    (fun _ => by simp only [Reader.arrays]; decide)
  simpa using h

theorem getD_range_map (f : Nat → α) (k d : Nat) (hd : d < k) (x : α) :
    ((List.range k).map f).getD d x = f d := by
  rw [List.getD_eq_getElem?_getD, List.getElem?_map]
  simp [List.getElem?_range, hd]

theorem getD_zipWith_of_lt (f : α → β → γ) (l₁ : List α) (l₂ : List β) (i : Nat)
    (h1 : i < l₁.length) (h2 : i < l₂.length) (x : γ) (y : α) (z : β) :
    (List.zipWith f l₁ l₂).getD i x = f (l₁.getD i y) (l₂.getD i z) := by
  rw [List.getD_eq_getElem?_getD, List.getElem?_zipWith', List.getElem?_eq_getElem h1,
    List.getElem?_eq_getElem h2]
  simp [List.getD_eq_getElem?_getD, List.getElem?_eq_getElem, h1, h2]

theorem getD_map_of_lt (l : List α) (f : α → β) (d : Nat) (hd : d < l.length) (x : β) (y : α) :
    (l.map f).getD d x = f (l.getD d y) := by
  rw [List.getD_eq_getElem?_getD, List.getElem?_map, List.getElem?_eq_getElem hd]
  simp [List.getD_eq_getElem?_getD, List.getElem?_eq_getElem hd]

theorem getD_take_of_lt (l : List α) (k d : Nat) (hd : d < k) (x : α) :
    (l.take k).getD d x = l.getD d x := by
  rw [List.getD_eq_getElem?_getD, List.getElem?_take_of_lt (h := hd), ← List.getD_eq_getElem?_getD]

theorem take_append_of_length_eq (l₁ l₂ : List α) (n : Nat) (h : l₁.length = n) :
    (l₁ ++ l₂).take n = l₁ := by
  subst h
  exact List.take_left l₁ l₂

theorem drop_append_of_length_eq (l₁ l₂ : List α) (n : Nat) (h : l₁.length = n) :
    (l₁ ++ l₂).drop n = l₂ := by
  subst h
  exact List.drop_left l₁ l₂

theorem padDim_fit (s' e' : Int) (len : Nat) (hse : s' ≤ e') :
    min ((-(min s' 0)).toNat
        + (min (max (max e' 0) 0) (len : Int) - min (max (max s' 0) 0) (len : Int)).toNat)
      ((e' - s').toNat)
    - min (-(min s' 0)).toNat ((e' - s').toNat)
    = (min (max (max e' 0) 0) (len : Int) - min (max (max s' 0) 0) (len : Int)).toNat := by
  omega

theorem padDim_rect_iff (s' e' p : Int) (len : Nat) (hse : s' ≤ e') (hp0 : 0 ≤ p)
    (hpLt : p < e' - s') :
    (-(min s' 0) ≤ p ∧
      p < -(min s' 0)
        + ((min (max (max e' 0) 0) (len : Int) - min (max (max s' 0) 0) (len : Int)).toNat : Int))
      ↔ (0 ≤ s' + p ∧ s' + p < (len : Int)) := by
  omega

theorem padDim_src_offset (s' p : Int) (len : Nat) (hp0 : 0 ≤ p) (h1 : 0 ≤ s' + p)
    (h2 : s' + p < (len : Int)) :
    min (max (max s' 0) 0) (len : Int) + (p - -(min s' 0)) = s' + p := by
  omega

theorem padPatchCompute_spec (index_diffs indexing : List (Int × Int)) (src : NDArray)
    (hlen : indexing.length = index_diffs.length)
    (hrank : indexing.length ≤ src.shape.length)
    (hse : ∀ d, d < indexing.length →
      (indexing.getD d (0, 0)).1 + (index_diffs.getD d (0, 0)).1 ≤
        (indexing.getD d (0, 0)).2 + (index_diffs.getD d (0, 0)).2) :
    ∃ out, padPatchCompute index_diffs indexing src = some out ∧
      out.shape = (paddedIndexingOf index_diffs indexing).map (fun q => (q.2 - q.1).toNat)
          ++ src.shape.drop indexing.length ∧
      ∀ (p t : List Int), p.length = indexing.length →
        (∀ d, d < indexing.length → 0 ≤ p.getD d 0 ∧
          p.getD d 0 < (indexing.getD d (0, 0)).2 + (index_diffs.getD d (0, 0)).2
            - ((indexing.getD d (0, 0)).1 + (index_diffs.getD d (0, 0)).1)) →
        out.get (p ++ t) =
          if ∀ d, d < indexing.length →
              0 ≤ (indexing.getD d (0, 0)).1 + (index_diffs.getD d (0, 0)).1 + p.getD d 0 ∧
              (indexing.getD d (0, 0)).1 + (index_diffs.getD d (0, 0)).1 + p.getD d 0 <
                (src.shape.getD d 0 : Int) then
            src.get ((List.range indexing.length).map (fun d =>
              (indexing.getD d (0, 0)).1 + (index_diffs.getD d (0, 0)).1 + p.getD d 0) ++ t)
          else 0 := by
  have hplen : (paddedIndexingOf index_diffs indexing).length = indexing.length := by
    simp [paddedIndexingOf, List.length_zipWith, ← hlen]
  have hpad : ∀ d, d < indexing.length →
      (paddedIndexingOf index_diffs indexing).getD d (0, 0) =
        ((indexing.getD d (0, 0)).1 + (index_diffs.getD d (0, 0)).1,
         (indexing.getD d (0, 0)).2 + (index_diffs.getD d (0, 0)).2) := by
    intro d hd
    rw [paddedIndexingOf, getD_zipWith_of_lt _ indexing index_diffs d hd (by omega)
      (0, 0) (0, 0) (0, 0)]
  have hsub : ∀ d, d < indexing.length →
      ((paddedIndexingOf index_diffs indexing).map (fun q : Int × Int => -(min q.1 0))).getD d 0 = -(min ((indexing.getD d (0, 0)).1 + (index_diffs.getD d (0, 0)).1) 0) := by
    intro d hd
    rw [getD_map_of_lt _ _ d (by omega) 0 (0, 0), hpad d hd]
  have hps : ∀ d, d < indexing.length →
      ((paddedIndexingOf index_diffs indexing).map (fun q : Int × Int => (q.2 - q.1).toNat)).getD d 0 = (((indexing.getD d (0, 0)).2 + (index_diffs.getD d (0, 0)).2) - ((indexing.getD d (0, 0)).1 + (index_diffs.getD d (0, 0)).1)).toNat := by
    intro d hd
    rw [getD_map_of_lt _ _ d (by omega) 0 (0, 0), hpad d hd]
  have hcllen : ((paddedIndexingOf index_diffs indexing).map (fun q : Int × Int => (max q.1 0, max q.2 0))).length = indexing.length := by
    simp [hplen]
  have hclTlen : (List.zipWith (fun (r : Int × Int) (len : Nat) => (min (max r.1 0) (len : Int), min (max r.2 0) (len : Int))) ((paddedIndexingOf index_diffs indexing).map (fun q : Int × Int => (max q.1 0, max q.2 0))) (src.shape.take ((paddedIndexingOf index_diffs indexing).map (fun q : Int × Int => (max q.1 0, max q.2 0))).length)).length = indexing.length := by
    simp only [List.length_zipWith, List.length_take, List.length_map, hplen]
    rw [min_eq_left hrank, min_self]
  have hclT : ∀ d, d < indexing.length →
      (List.zipWith (fun (r : Int × Int) (len : Nat) => (min (max r.1 0) (len : Int), min (max r.2 0) (len : Int))) ((paddedIndexingOf index_diffs indexing).map (fun q : Int × Int => (max q.1 0, max q.2 0))) (src.shape.take ((paddedIndexingOf index_diffs indexing).map (fun q : Int × Int => (max q.1 0, max q.2 0))).length)).getD d (0, 0)
        = (min (max (max ((indexing.getD d (0, 0)).1 + (index_diffs.getD d (0, 0)).1) 0) 0) ((src.shape.getD d 0 : Nat) : Int), min (max (max ((indexing.getD d (0, 0)).2 + (index_diffs.getD d (0, 0)).2) 0) 0) ((src.shape.getD d 0 : Nat) : Int)) := by
    intro d hd
    have h2d : d < (src.shape.take ((paddedIndexingOf index_diffs indexing).map (fun q : Int × Int => (max q.1 0, max q.2 0))).length).length := by
      simp only [List.length_take, List.length_map, hplen]
      exact lt_min_iff.mpr ⟨hd, lt_of_lt_of_le hd hrank⟩
    rw [getD_zipWith_of_lt _ _ _ d (by omega) h2d (0, 0) (0, 0) 0]
    rw [getD_map_of_lt _ _ d (by omega) (0, 0) (0, 0), hpad d hd,
      getD_take_of_lt _ _ d (by omega) 0]
  have hlenA : ((List.zipWith (fun (r : Int × Int) (len : Nat) => (min (max r.1 0) (len : Int), min (max r.2 0) (len : Int))) ((paddedIndexingOf index_diffs indexing).map (fun q : Int × Int => (max q.1 0, max q.2 0))) (src.shape.take ((paddedIndexingOf index_diffs indexing).map (fun q : Int × Int => (max q.1 0, max q.2 0))).length)).map (fun c : Int × Int => (c.2 - c.1).toNat)).length = indexing.length := by
    rw [List.length_map]
    exact hclTlen
  have hTake : (ndarrayRead src ((paddedIndexingOf index_diffs indexing).map (fun q : Int × Int => (max q.1 0, max q.2 0)))).shape.take indexing.length
      = (List.zipWith (fun (r : Int × Int) (len : Nat) => (min (max r.1 0) (len : Int), min (max r.2 0) (len : Int))) ((paddedIndexingOf index_diffs indexing).map (fun q : Int × Int => (max q.1 0, max q.2 0))) (src.shape.take ((paddedIndexingOf index_diffs indexing).map (fun q : Int × Int => (max q.1 0, max q.2 0))).length)).map (fun c : Int × Int => (c.2 - c.1).toNat) := by
    simp only [ndarrayRead]
    exact take_append_of_length_eq _ _ _ hlenA
  have hdrop : (ndarrayRead src ((paddedIndexingOf index_diffs indexing).map (fun q : Int × Int => (max q.1 0, max q.2 0)))).shape.drop indexing.length = src.shape.drop indexing.length := by
    simp only [ndarrayRead]
    rw [drop_append_of_length_eq _ _ _ hlenA, hcllen]
  have hdst2 : ∀ d, d < indexing.length →
      ((ndarrayRead src ((paddedIndexingOf index_diffs indexing).map (fun q : Int × Int => (max q.1 0, max q.2 0)))).shape.take indexing.length).getD d 0
        = (min (max (max ((indexing.getD d (0, 0)).2 + (index_diffs.getD d (0, 0)).2) 0) 0) ((src.shape.getD d 0 : Nat) : Int) - min (max (max ((indexing.getD d (0, 0)).1 + (index_diffs.getD d (0, 0)).1) 0) 0) ((src.shape.getD d 0 : Nat) : Int)).toNat := by
    intro d hd
    rw [hTake, getD_map_of_lt _ _ d (by omega) 0 (0, 0), hclT d hd]
  have hfit : ((List.range indexing.length).all fun d =>
      decide (min ((((paddedIndexingOf index_diffs indexing).map (fun q : Int × Int => -(min q.1 0))).getD d 0).toNat + ((ndarrayRead src ((paddedIndexingOf index_diffs indexing).map (fun q : Int × Int => (max q.1 0, max q.2 0)))).shape.take indexing.length).getD d 0)
          (((paddedIndexingOf index_diffs indexing).map (fun q : Int × Int => (q.2 - q.1).toNat)).getD d 0)
        - min (((paddedIndexingOf index_diffs indexing).map (fun q : Int × Int => -(min q.1 0))).getD d 0).toNat (((paddedIndexingOf index_diffs indexing).map (fun q : Int × Int => (q.2 - q.1).toNat)).getD d 0)
        = ((ndarrayRead src ((paddedIndexingOf index_diffs indexing).map (fun q : Int × Int => (max q.1 0, max q.2 0)))).shape.take indexing.length).getD d 0)) = true := by
    rw [List.all_eq_true]
    intro x hx
    have hd : x < indexing.length := List.mem_range.mp hx
    rw [decide_eq_true_eq, hsub x hd, hps x hd, hdst2 x hd]
    exact padDim_fit ((indexing.getD x (0, 0)).1 + (index_diffs.getD x (0, 0)).1) ((indexing.getD x (0, 0)).2 + (index_diffs.getD x (0, 0)).2) (src.shape.getD x 0) (hse x hd)
  refine ⟨padBuffer ((paddedIndexingOf index_diffs indexing).map (fun q : Int × Int => (q.2 - q.1).toNat)) ((paddedIndexingOf index_diffs indexing).map (fun q : Int × Int => -(min q.1 0))) (ndarrayRead src ((paddedIndexingOf index_diffs indexing).map (fun q : Int × Int => (max q.1 0, max q.2 0)))) indexing.length, ?_, ?_, ?_⟩
  · simp only [padPatchCompute]
    rw [if_neg (by omega : ¬indexing.length ≠ index_diffs.length),
      if_neg (by omega : ¬src.shape.length < indexing.length)]
    have hany : ((paddedIndexingOf index_diffs indexing).any fun q => decide (q.2 - q.1 < 0)) = false := by
      rw [List.any_eq_false]
      intro q hq
      rw [List.mem_iff_getElem] at hq
      obtain ⟨d, hdl, hqe⟩ := hq
      have hd : d < indexing.length := by omega
      have hq2 : q = (paddedIndexingOf index_diffs indexing).getD d (0, 0) := by
        rw [List.getD_eq_getElem _ _ hdl, hqe]
      rw [hq2, hpad d hd]
      simp only [decide_eq_true_eq, not_lt]
      have := hse d hd
      omega
    rw [if_neg (by rw [hany]; simp), if_pos hfit]
  · simp only [padBuffer]
    rw [hdrop]
  · intro p t hp hbnd
    simp only [padBuffer]
    by_cases hin : ∀ d, d < indexing.length →
        0 ≤ ((indexing.getD d (0, 0)).1 + (index_diffs.getD d (0, 0)).1) + p.getD d 0 ∧ ((indexing.getD d (0, 0)).1 + (index_diffs.getD d (0, 0)).1) + p.getD d 0 < (src.shape.getD d 0 : Int)
    · rw [if_pos hin]
      have hall : ((List.range indexing.length).all fun d =>
          decide (((paddedIndexingOf index_diffs indexing).map (fun q : Int × Int => -(min q.1 0))).getD d 0 ≤ (p ++ t).getD d 0 ∧
            (p ++ t).getD d 0 < ((paddedIndexingOf index_diffs indexing).map (fun q : Int × Int => -(min q.1 0))).getD d 0
              + (((ndarrayRead src ((paddedIndexingOf index_diffs indexing).map (fun q : Int × Int => (max q.1 0, max q.2 0)))).shape.take indexing.length).getD d 0 : Int))) = true := by
        rw [List.all_eq_true]
        intro x hx
        have hd : x < indexing.length := List.mem_range.mp hx
        rw [decide_eq_true_eq, List.getD_append p t 0 x (by omega), hsub x hd, hdst2 x hd]
        exact (padDim_rect_iff ((indexing.getD x (0, 0)).1 + (index_diffs.getD x (0, 0)).1) ((indexing.getD x (0, 0)).2 + (index_diffs.getD x (0, 0)).2) (p.getD x 0) (src.shape.getD x 0)
          (hse x hd) (hbnd x hd).1 (hbnd x hd).2).mpr (hin x hd)
      rw [if_pos hall]
      have hdropp : (p ++ t).drop indexing.length = t :=
        drop_append_of_length_eq p t _ hp
      rw [hdropp]
      have hmap1 : (List.range indexing.length).map
          (fun d => (p ++ t).getD d 0 - ((paddedIndexingOf index_diffs indexing).map (fun q : Int × Int => -(min q.1 0))).getD d 0) = ((List.range indexing.length).map (fun d => p.getD d 0 - -(min ((indexing.getD d (0, 0)).1 + (index_diffs.getD d (0, 0)).1) 0))) := by
        apply List.map_congr_left
        intro x hx
        have hd : x < indexing.length := List.mem_range.mp hx
        rw [List.getD_append p t 0 x (by omega), hsub x hd]
      rw [hmap1]
      simp only [ndarrayRead]
      rw [hclTlen]
      have hQlen : ((List.range indexing.length).map (fun d => p.getD d 0 - -(min ((indexing.getD d (0, 0)).1 + (index_diffs.getD d (0, 0)).1) 0))).length = indexing.length := by
        simp
      have hdropq : (((List.range indexing.length).map (fun d => p.getD d 0 - -(min ((indexing.getD d (0, 0)).1 + (index_diffs.getD d (0, 0)).1) 0))) ++ t).drop indexing.length = t :=
        drop_append_of_length_eq _ t _ hQlen
      rw [hdropq]
      have hmap2 : (List.range indexing.length).map (fun d =>
          ((List.zipWith (fun (r : Int × Int) (len : Nat) => (min (max r.1 0) (len : Int), min (max r.2 0) (len : Int))) ((paddedIndexingOf index_diffs indexing).map (fun q : Int × Int => (max q.1 0, max q.2 0))) (src.shape.take ((paddedIndexingOf index_diffs indexing).map (fun q : Int × Int => (max q.1 0, max q.2 0))).length)).getD d (0, 0)).1 + (((List.range indexing.length).map (fun d => p.getD d 0 - -(min ((indexing.getD d (0, 0)).1 + (index_diffs.getD d (0, 0)).1) 0))) ++ t).getD d 0)
          = (List.range indexing.length).map (fun d => ((indexing.getD d (0, 0)).1 + (index_diffs.getD d (0, 0)).1) + p.getD d 0) := by
        apply List.map_congr_left
        intro x hx
        have hd : x < indexing.length := List.mem_range.mp hx
        rw [List.getD_append _ t 0 x (by rw [hQlen]; omega), getD_range_map _ _ x hd, hclT x hd]
        exact padDim_src_offset ((indexing.getD x (0, 0)).1 + (index_diffs.getD x (0, 0)).1) (p.getD x 0) (src.shape.getD x 0)
          (hbnd x hd).1 (hin x hd).1 (hin x hd).2
      rw [hmap2]
    · rw [if_neg hin]
      rw [not_forall] at hin
      obtain ⟨d, hdm⟩ := hin
      rw [Classical.not_imp] at hdm
      obtain ⟨hd, hviol⟩ := hdm
      have hallf : ((List.range indexing.length).all fun d =>
          decide (((paddedIndexingOf index_diffs indexing).map (fun q : Int × Int => -(min q.1 0))).getD d 0 ≤ (p ++ t).getD d 0 ∧
            (p ++ t).getD d 0 < ((paddedIndexingOf index_diffs indexing).map (fun q : Int × Int => -(min q.1 0))).getD d 0
              + (((ndarrayRead src ((paddedIndexingOf index_diffs indexing).map (fun q : Int × Int => (max q.1 0, max q.2 0)))).shape.take indexing.length).getD d 0 : Int))) = false := by
        rw [List.all_eq_false]
        refine ⟨d, List.mem_range.mpr hd, ?_⟩
        rw [Bool.not_eq_true, decide_eq_false_iff_not]
        rw [List.getD_append p t 0 d (by omega), hsub d hd, hdst2 d hd]
        intro hrect
        exact hviol ((padDim_rect_iff ((indexing.getD d (0, 0)).1 + (index_diffs.getD d (0, 0)).1) ((indexing.getD d (0, 0)).2 + (index_diffs.getD d (0, 0)).2) (p.getD d 0) (src.shape.getD d 0)
          (hse d hd) (hbnd d hd).1 (hbnd d hd).2).mp hrect)
      rw [if_neg (by rw [hallf]; simp)]

/-- C1: for every requested index expression (with the spec's start-le-stop
invariant) and every per-dimension (before, after) padding configuration,
PadPatchDataExtractor.extract writes an array whose shape equals the padded
shape — stop minus start of the padded range per spatial dimension, plus
the source array's trailing non-spatial dimensions — regardless of whether
the requested range touches the array boundary; for a fully interior patch
the output equals the unpadded read placed at the padding offset; and every
output position whose aligned source position lies outside the source
extent (the pad margin) is zero. -/
theorem C1_pad_patch_shape_interior_margin (pads : List (Nat × Nat)) (c : String)
    (r : Reader) (subject_index : Nat) (index_expr : List (Int × Int))
    (extracted : List (String × Value))
    (hlen : index_expr.length = pads.length)
    (hsub : subject_index < r.subjectEntries.length)
    (hrank : index_expr.length ≤ (r.arrays (DATA_PLACEHOLDER c ++ "/" ++ baseNameOf (r.subjectEntries.getD subject_index ""))).shape.length)
    (hse : ∀ d, d < index_expr.length → (index_expr.getD d (0, 0)).1 ≤ (index_expr.getD d (0, 0)).2) :
    ∃ stOut exOut out,
      PadPatchDataExtractor.extract (PadPatchDataExtractor.init (Padding.pairs pads) [c])
        r subject_index index_expr extracted = .ok (stOut, exOut) ∧
      dictGet? exOut c = some (.vArr out) ∧
      out.shape = (paddedIndexingOf (mkIndexDiffs (Padding.pairs pads)) index_expr).map (fun q => (q.2 - q.1).toNat)
        ++ (r.arrays (DATA_PLACEHOLDER c ++ "/" ++ baseNameOf (r.subjectEntries.getD subject_index ""))).shape.drop index_expr.length ∧
      (∀ d, d < index_expr.length → out.shape.getD d 0 = (((index_expr.getD d (0, 0)).2 + ((pads.getD d (0, 0)).2 : Int)) - ((index_expr.getD d (0, 0)).1 - ((pads.getD d (0, 0)).1 : Int))).toNat) ∧
      ((∀ d, d < index_expr.length →
          0 ≤ ((index_expr.getD d (0, 0)).1 - ((pads.getD d (0, 0)).1 : Int)) ∧ ((index_expr.getD d (0, 0)).2 + ((pads.getD d (0, 0)).2 : Int)) ≤ ((r.arrays (DATA_PLACEHOLDER c ++ "/" ++ baseNameOf (r.subjectEntries.getD subject_index ""))).shape.getD d 0 : Int)) →
        ∀ (i t : List Int), i.length = index_expr.length →
        (∀ d, d < index_expr.length →
          0 ≤ i.getD d 0 ∧ i.getD d 0 < (index_expr.getD d (0, 0)).2 - (index_expr.getD d (0, 0)).1) →
        out.get ((List.range index_expr.length).map (fun d => ((pads.getD d (0, 0)).1 : Int) + i.getD d 0) ++ t)
          = (r.arrays (DATA_PLACEHOLDER c ++ "/" ++ baseNameOf (r.subjectEntries.getD subject_index ""))).get ((List.range index_expr.length).map
              (fun d => (index_expr.getD d (0, 0)).1 + i.getD d 0) ++ t)) ∧
      (∀ (p t : List Int), p.length = index_expr.length →
        (∀ d, d < index_expr.length →
          0 ≤ p.getD d 0 ∧ p.getD d 0 < ((index_expr.getD d (0, 0)).2 + ((pads.getD d (0, 0)).2 : Int)) - ((index_expr.getD d (0, 0)).1 - ((pads.getD d (0, 0)).1 : Int))) →
        (∃ d, d < index_expr.length ∧ (((index_expr.getD d (0, 0)).1 - ((pads.getD d (0, 0)).1 : Int)) + p.getD d 0 < 0 ∨
          ((r.arrays (DATA_PLACEHOLDER c ++ "/" ++ baseNameOf (r.subjectEntries.getD subject_index ""))).shape.getD d 0 : Int) ≤ ((index_expr.getD d (0, 0)).1 - ((pads.getD d (0, 0)).1 : Int)) + p.getD d 0)) →
        out.get (p ++ t) = 0) := by
  have hdlen : index_expr.length = (mkIndexDiffs (Padding.pairs pads)).length := by
    simp [mkIndexDiffs, hlen]
  have hdiffs : ∀ d, d < index_expr.length →
      (mkIndexDiffs (Padding.pairs pads)).getD d (0, 0) = (-((pads.getD d (0, 0)).1 : Int), ((pads.getD d (0, 0)).2 : Int)) := by
    intro d hd
    simp only [mkIndexDiffs]
    rw [getD_map_of_lt _ _ d (by omega) (0, 0) (0, 0)]
  have hse2 : ∀ d, d < index_expr.length → ((index_expr.getD d (0, 0)).1 + ((mkIndexDiffs (Padding.pairs pads)).getD d (0, 0)).1) ≤ ((index_expr.getD d (0, 0)).2 + ((mkIndexDiffs (Padding.pairs pads)).getD d (0, 0)).2) := by
    intro d hd
    rw [hdiffs d hd]
    have h1 := hse d hd
    have h2 : (0 : Int) ≤ ((pads.getD d (0, 0)).1 : Int) := Int.natCast_nonneg _
    have h3 : (0 : Int) ≤ ((pads.getD d (0, 0)).2 : Int) := Int.natCast_nonneg _
    omega
  obtain ⟨out, hout, hshape, hget⟩ :=
    padPatchCompute_spec (mkIndexDiffs (Padding.pairs pads)) index_expr (r.arrays (DATA_PLACEHOLDER c ++ "/" ++ baseNameOf (r.subjectEntries.getD subject_index ""))) hdlen hrank hse2
  have hplen2 : (paddedIndexingOf (mkIndexDiffs (Padding.pairs pads)) index_expr).length = index_expr.length := by
    simp [paddedIndexingOf, ← hdlen]
  have hpadget : ∀ d, d < index_expr.length →
      (paddedIndexingOf (mkIndexDiffs (Padding.pairs pads)) index_expr).getD d (0, 0) = (((index_expr.getD d (0, 0)).1 - ((pads.getD d (0, 0)).1 : Int)), ((index_expr.getD d (0, 0)).2 + ((pads.getD d (0, 0)).2 : Int))) := by
    intro d hd
    rw [paddedIndexingOf, getD_zipWith_of_lt _ index_expr (mkIndexDiffs (Padding.pairs pads)) d hd (by omega)
      (0, 0) (0, 0) (0, 0), hdiffs d hd]
    rw [Prod.mk.injEq]
    constructor <;> omega
  have hkey : (r.subjectEntries.map baseNameOf).get
      ⟨subject_index, by simpa using hsub⟩
      = baseNameOf (r.subjectEntries.getD subject_index "") := by
    simp [List.get_eq_getElem, List.getElem_map, List.getD_eq_getElem?_getD,
      List.getElem?_eq_getElem hsub]
  have hextract : PadPatchDataExtractor.extract
      (PadPatchDataExtractor.init (Padding.pairs pads) [c]) r subject_index index_expr extracted
      = .ok (⟨[c], (mkIndexDiffs (Padding.pairs pads)), some (r.subjectEntries.map baseNameOf)⟩,
             dictSet extracted c (.vArr out)) := by
    simp only [PadPatchDataExtractor.extract, PadPatchDataExtractor.init, resolveEntryBaseNames]
    rw [listIndex, dif_pos (by simpa using hsub)]
    simp only [List.foldlM, hkey, hout]
    rfl
  refine ⟨_, _, out, hextract, dictGet?_dictSet _ _ _, hshape, ?_, ?_, ?_⟩
  · intro d hd
    rw [hshape, List.getD_append _ _ _ _ (by simp only [List.length_map]; omega),
      getD_map_of_lt _ _ d (by omega) 0 (0, 0), hpadget d hd]
  · intro hint i t hi hib
    have hp : ((List.range index_expr.length).map
        (fun d => ((pads.getD d (0, 0)).1 : Int) + i.getD d 0)).length = index_expr.length := by
      simp
    have hbnd : ∀ d, d < index_expr.length →
        0 ≤ ((List.range index_expr.length).map
            (fun d => ((pads.getD d (0, 0)).1 : Int) + i.getD d 0)).getD d 0 ∧
          ((List.range index_expr.length).map
            (fun d => ((pads.getD d (0, 0)).1 : Int) + i.getD d 0)).getD d 0 < ((index_expr.getD d (0, 0)).2 + ((mkIndexDiffs (Padding.pairs pads)).getD d (0, 0)).2) - ((index_expr.getD d (0, 0)).1 + ((mkIndexDiffs (Padding.pairs pads)).getD d (0, 0)).1) := by
      intro d hd
      rw [getD_range_map _ _ d hd, hdiffs d hd]
      have h1 := hib d hd
      have h2 : (0 : Int) ≤ ((pads.getD d (0, 0)).1 : Int) := Int.natCast_nonneg _
      have h3 : (0 : Int) ≤ ((pads.getD d (0, 0)).2 : Int) := Int.natCast_nonneg _
      omega
    rw [hget _ t hp hbnd]
    have hinarr : ∀ d, d < index_expr.length →
        0 ≤ ((index_expr.getD d (0, 0)).1 + ((mkIndexDiffs (Padding.pairs pads)).getD d (0, 0)).1) + ((List.range index_expr.length).map
            (fun d => ((pads.getD d (0, 0)).1 : Int) + i.getD d 0)).getD d 0 ∧
          ((index_expr.getD d (0, 0)).1 + ((mkIndexDiffs (Padding.pairs pads)).getD d (0, 0)).1) + ((List.range index_expr.length).map
            (fun d => ((pads.getD d (0, 0)).1 : Int) + i.getD d 0)).getD d 0 < ((r.arrays (DATA_PLACEHOLDER c ++ "/" ++ baseNameOf (r.subjectEntries.getD subject_index ""))).shape.getD d 0 : Int) := by
      intro d hd
      rw [getD_range_map _ _ d hd, hdiffs d hd]
      have h1 := hib d hd
      have h4 := hint d hd
      have h2 : (0 : Int) ≤ ((pads.getD d (0, 0)).1 : Int) := Int.natCast_nonneg _
      have h3 : (0 : Int) ≤ ((pads.getD d (0, 0)).2 : Int) := Int.natCast_nonneg _
      omega
    rw [if_pos hinarr]
    have hmapeq : (List.range index_expr.length).map (fun d =>
        ((index_expr.getD d (0, 0)).1 + ((mkIndexDiffs (Padding.pairs pads)).getD d (0, 0)).1) + ((List.range index_expr.length).map
          (fun d => ((pads.getD d (0, 0)).1 : Int) + i.getD d 0)).getD d 0)
        = (List.range index_expr.length).map (fun d => (index_expr.getD d (0, 0)).1 + i.getD d 0) := by
      apply List.map_congr_left
      intro x hx
      have hd : x < index_expr.length := List.mem_range.mp hx
      rw [getD_range_map _ _ x hd, hdiffs x hd]
      omega
    rw [hmapeq]
  · intro p t hp hpb hmar
    have hbnd : ∀ d, d < index_expr.length →
        0 ≤ p.getD d 0 ∧ p.getD d 0 < ((index_expr.getD d (0, 0)).2 + ((mkIndexDiffs (Padding.pairs pads)).getD d (0, 0)).2) - ((index_expr.getD d (0, 0)).1 + ((mkIndexDiffs (Padding.pairs pads)).getD d (0, 0)).1) := by
      intro d hd
      rw [hdiffs d hd]
      have h1 := hpb d hd
      omega
    rw [hget p t hp hbnd]
    rw [if_neg ?_]
    intro hall
    obtain ⟨d, hd, hviol⟩ := hmar
    have h1 := hall d hd
    rw [hdiffs d hd] at h1
    omega

/-- Witness for C1 at a concrete one-dimensional store: length-4 array,
requested range (1, 3), padding (1, 1) on the single dimension. -/
theorem C1_pad_patch_shape_interior_margin_witness :
    ∃ stOut exOut out,
      PadPatchDataExtractor.extract (PadPatchDataExtractor.init (Padding.pairs [((1 : Nat), (1 : Nat))]) ["images"])
        (⟨fun _ => ⟨[4], fun _ => 7⟩, fun _ => .vNames [], fun _ => true, ["g/s0"]⟩ : Reader) 0 [((1 : Int), (3 : Int))] [] = .ok (stOut, exOut) ∧
      dictGet? exOut "images" = some (.vArr out) ∧
      out.shape = (paddedIndexingOf (mkIndexDiffs (Padding.pairs [(1, 1)])) [((1 : Int), (3 : Int))]).map (fun q => (q.2 - q.1).toNat)
        ++ ((⟨fun _ => ⟨[4], fun _ => 7⟩, fun _ => .vNames [], fun _ => true, ["g/s0"]⟩ : Reader).arrays (DATA_PLACEHOLDER "images" ++ "/" ++ baseNameOf ((⟨fun _ => ⟨[4], fun _ => 7⟩, fun _ => .vNames [], fun _ => true, ["g/s0"]⟩ : Reader).subjectEntries.getD 0 ""))).shape.drop ([((1 : Int), (3 : Int))] : List (Int × Int)).length ∧
      (∀ d, d < ([((1 : Int), (3 : Int))] : List (Int × Int)).length →
        out.shape.getD d 0 = (((([((1 : Int), (3 : Int))]).getD d (0, 0)).2 + ((([((1 : Nat), (1 : Nat))]).getD d (0, 0)).2 : Int)) - ((([((1 : Int), (3 : Int))]).getD d (0, 0)).1 - ((([((1 : Nat), (1 : Nat))]).getD d (0, 0)).1 : Int))).toNat) ∧
      ((∀ d, d < ([((1 : Int), (3 : Int))] : List (Int × Int)).length →
          0 ≤ ((([((1 : Int), (3 : Int))]).getD d (0, 0)).1 - ((([((1 : Nat), (1 : Nat))]).getD d (0, 0)).1 : Int)) ∧ ((([((1 : Int), (3 : Int))]).getD d (0, 0)).2 + ((([((1 : Nat), (1 : Nat))]).getD d (0, 0)).2 : Int)) ≤ (((⟨fun _ => ⟨[4], fun _ => 7⟩, fun _ => .vNames [], fun _ => true, ["g/s0"]⟩ : Reader).arrays (DATA_PLACEHOLDER "images" ++ "/" ++ baseNameOf ((⟨fun _ => ⟨[4], fun _ => 7⟩, fun _ => .vNames [], fun _ => true, ["g/s0"]⟩ : Reader).subjectEntries.getD 0 ""))).shape.getD d 0 : Int)) →
        ∀ (i t : List Int), i.length = ([((1 : Int), (3 : Int))] : List (Int × Int)).length →
        (∀ d, d < ([((1 : Int), (3 : Int))] : List (Int × Int)).length →
          0 ≤ i.getD d 0 ∧ i.getD d 0 < (([((1 : Int), (3 : Int))]).getD d (0, 0)).2 - (([((1 : Int), (3 : Int))]).getD d (0, 0)).1) →
        out.get ((List.range ([((1 : Int), (3 : Int))] : List (Int × Int)).length).map
            (fun d => ((([((1 : Nat), (1 : Nat))]).getD d (0, 0)).1 : Int) + i.getD d 0) ++ t)
          = ((⟨fun _ => ⟨[4], fun _ => 7⟩, fun _ => .vNames [], fun _ => true, ["g/s0"]⟩ : Reader).arrays (DATA_PLACEHOLDER "images" ++ "/" ++ baseNameOf ((⟨fun _ => ⟨[4], fun _ => 7⟩, fun _ => .vNames [], fun _ => true, ["g/s0"]⟩ : Reader).subjectEntries.getD 0 ""))).get ((List.range ([((1 : Int), (3 : Int))] : List (Int × Int)).length).map
              (fun d => (([((1 : Int), (3 : Int))]).getD d (0, 0)).1 + i.getD d 0) ++ t)) ∧
      (∀ (p t : List Int), p.length = ([((1 : Int), (3 : Int))] : List (Int × Int)).length →
        (∀ d, d < ([((1 : Int), (3 : Int))] : List (Int × Int)).length →
          0 ≤ p.getD d 0 ∧ p.getD d 0 < ((([((1 : Int), (3 : Int))]).getD d (0, 0)).2 + ((([((1 : Nat), (1 : Nat))]).getD d (0, 0)).2 : Int)) - ((([((1 : Int), (3 : Int))]).getD d (0, 0)).1 - ((([((1 : Nat), (1 : Nat))]).getD d (0, 0)).1 : Int))) →
        (∃ d, d < ([((1 : Int), (3 : Int))] : List (Int × Int)).length ∧ (((([((1 : Int), (3 : Int))]).getD d (0, 0)).1 - ((([((1 : Nat), (1 : Nat))]).getD d (0, 0)).1 : Int)) + p.getD d 0 < 0 ∨
          (((⟨fun _ => ⟨[4], fun _ => 7⟩, fun _ => .vNames [], fun _ => true, ["g/s0"]⟩ : Reader).arrays (DATA_PLACEHOLDER "images" ++ "/" ++ baseNameOf ((⟨fun _ => ⟨[4], fun _ => 7⟩, fun _ => .vNames [], fun _ => true, ["g/s0"]⟩ : Reader).subjectEntries.getD 0 ""))).shape.getD d 0 : Int) ≤ ((([((1 : Int), (3 : Int))]).getD d (0, 0)).1 - ((([((1 : Nat), (1 : Nat))]).getD d (0, 0)).1 : Int)) + p.getD d 0)) →
        out.get (p ++ t) = 0) :=
  C1_pad_patch_shape_interior_margin [((1 : Nat), (1 : Nat))] "images" (⟨fun _ => ⟨[4], fun _ => 7⟩, fun _ => .vNames [], fun _ => true, ["g/s0"]⟩ : Reader) 0 [((1 : Int), (3 : Int))] []
    (by decide) (by decide) (by simp only [Reader.arrays]; decide) (by decide)

theorem NDArray_shape_mk (s : List Nat) (f : List Int → Int) :
    (NDArray.mk s f).shape = s := rfl

/-- C2: PadPatchDataExtractor configured with per-dimension padding (2, 2),
applied through a store holding a 1-D array of length 10 with requested
range (0, 3), writes a length-7 array: positions 0 and 1 are zero,
positions 2, 3, 4 hold the source values at indices 0, 1, 2, and positions
5 and 6 hold the source values at indices 3 and 4. -/
theorem C2_pad_patch_1d_scenario (g : List Int → Int) :
    ∃ stOut exOut out,
      PadPatchDataExtractor.extract
        (PadPatchDataExtractor.init (Padding.pairs [(2, 2)]) ["images"])
        (⟨fun _ => ⟨[10], g⟩, fun _ => .vNames [], fun _ => true, ["g/s0"]⟩ : Reader)
        0 [((0 : Int), (3 : Int))] [] = .ok (stOut, exOut) ∧
      dictGet? exOut "images" = some (.vArr out) ∧
      out.shape = [7] ∧
      out.get [0] = 0 ∧ out.get [1] = 0 ∧
      out.get [2] = g [0] ∧ out.get [3] = g [1] ∧ out.get [4] = g [2] ∧
      out.get [5] = g [3] ∧ out.get [6] = g [4] := by
  obtain ⟨out, hout, hshape, hget⟩ :=
    padPatchCompute_spec (mkIndexDiffs (Padding.pairs [(2, 2)])) [((0 : Int), (3 : Int))]
      ⟨[10], g⟩ (by decide) (by simp) (by decide)
  have hextract : PadPatchDataExtractor.extract
      (PadPatchDataExtractor.init (Padding.pairs [(2, 2)]) ["images"])
      (⟨fun _ => ⟨[10], g⟩, fun _ => .vNames [], fun _ => true, ["g/s0"]⟩ : Reader)
      0 [((0 : Int), (3 : Int))] []
      = .ok (⟨["images"], mkIndexDiffs (Padding.pairs [(2, 2)]), some (["g/s0"].map baseNameOf)⟩,
             dictSet [] "images" (.vArr out)) := by
    simp only [PadPatchDataExtractor.extract, PadPatchDataExtractor.init, resolveEntryBaseNames]
    rw [listIndex, dif_pos (by decide)]
    simp only [List.foldlM, hout]
    rfl
  have h0 := hget [0] [] (by decide) (by decide)
  simp only [NDArray_shape_mk] at h0
  rw [if_neg (by decide)] at h0
  have h1 := hget [1] [] (by decide) (by decide)
  simp only [NDArray_shape_mk] at h1
  rw [if_neg (by decide)] at h1
  have h2 := hget [2] [] (by decide) (by decide)
  simp only [NDArray_shape_mk] at h2
  rw [if_pos (by decide)] at h2
  have h3 := hget [3] [] (by decide) (by decide)
  simp only [NDArray_shape_mk] at h3
  rw [if_pos (by decide)] at h3
  have h4 := hget [4] [] (by decide) (by decide)
  simp only [NDArray_shape_mk] at h4
  rw [if_pos (by decide)] at h4
  have h5 := hget [5] [] (by decide) (by decide)
  simp only [NDArray_shape_mk] at h5
  rw [if_pos (by decide)] at h5
  have h6 := hget [6] [] (by decide) (by decide)
  simp only [NDArray_shape_mk] at h6
  rw [if_pos (by decide)] at h6
  refine ⟨_, _, out, hextract, dictGet?_dictSet _ _ _, ?_, h0, h1, ?_, ?_, ?_, ?_, ?_⟩
  · rw [hshape]
    simp only [NDArray_shape_mk]
    decide
  · exact h2.trans (congrArg g (by decide))
  · exact h3.trans (congrArg g (by decide))
  · exact h4.trans (congrArg g (by decide))
  · exact h5.trans (congrArg g (by decide))
  · exact h6.trans (congrArg g (by decide))

/-- C9: a per-dimension padding offset (-b, +a) applied to requested
ranges yields the padded ranges (s - b, e + a); an extract call leaves the
instance's index_diffs untouched (the padded expression is a new value,
the stored offset is never updated), so repeated extract calls on the same
instance apply the same single offset each time — a later call behaves
exactly like a call on an instance holding the original offsets. -/
theorem C9_padding_offset_no_accumulation (pads : List (Nat × Nat))
    (indexing : List (Int × Int)) (st : PadPatchDataExtractor) (r : Reader) (si : Nat)
    (ie : List (Int × Int)) (e : List (String × Value)) (st1 : PadPatchDataExtractor)
    (ex1 : List (String × Value))
    (hrun : PadPatchDataExtractor.extract st r si ie e = .ok (st1, ex1)) :
    paddedIndexingOf (mkIndexDiffs (Padding.pairs pads)) indexing
      = List.zipWith (fun (q : Int × Int) (b : Nat × Nat) =>
          (q.1 - (b.1 : Int), q.2 + (b.2 : Int))) indexing pads ∧
    st1.index_diffs = st.index_diffs ∧
    (∀ si2 ie2 e2, PadPatchDataExtractor.extract st1 r si2 ie2 e2
      = PadPatchDataExtractor.extract ⟨st.categories, st.index_diffs, st1.entry_base_names⟩
          r si2 ie2 e2) := by
  refine ⟨?_, ?_⟩
  · simp only [paddedIndexingOf, mkIndexDiffs, List.zipWith_map_right, sub_eq_add_neg]
  · unfold PadPatchDataExtractor.extract at hrun
    dsimp only [] at hrun
    split at hrun
    · exact absurd hrun (by simp)
    · split at hrun
      · exact absurd hrun (by simp)
      · simp only [Except.ok.injEq, Prod.mk.injEq] at hrun
        obtain ⟨hst, _⟩ := hrun
        rw [← hst]
        exact ⟨rfl, fun _ _ _ => rfl⟩

/-- Witness for C9: a concrete extract call (empty category list, so the
call trivially succeeds) together with the concrete offset computation for
padding (2, 3) on range (5, 9). -/
theorem C9_padding_offset_no_accumulation_witness :
    paddedIndexingOf (mkIndexDiffs (Padding.pairs [(2, 3)])) [((5 : Int), (9 : Int))]
      = List.zipWith (fun (q : Int × Int) (b : Nat × Nat) =>
          (q.1 - (b.1 : Int), q.2 + (b.2 : Int))) [((5 : Int), (9 : Int))] [(2, 3)] ∧
    (⟨[], mkIndexDiffs (Padding.pairs [(2, 3)]),
        some (["g/s0"].map baseNameOf)⟩ : PadPatchDataExtractor).index_diffs
      = (⟨[], mkIndexDiffs (Padding.pairs [(2, 3)]), none⟩ : PadPatchDataExtractor).index_diffs ∧
    (∀ si2 ie2 e2, PadPatchDataExtractor.extract
        ⟨[], mkIndexDiffs (Padding.pairs [(2, 3)]), some (["g/s0"].map baseNameOf)⟩
        (⟨fun _ => default, fun _ => .vNames [], fun _ => true, ["g/s0"]⟩ : Reader) si2 ie2 e2
      = PadPatchDataExtractor.extract
          ⟨(⟨[], mkIndexDiffs (Padding.pairs [(2, 3)]), none⟩ : PadPatchDataExtractor).categories,
           (⟨[], mkIndexDiffs (Padding.pairs [(2, 3)]), none⟩ : PadPatchDataExtractor).index_diffs,
           (⟨[], mkIndexDiffs (Padding.pairs [(2, 3)]),
              some (["g/s0"].map baseNameOf)⟩ : PadPatchDataExtractor).entry_base_names⟩
          (⟨fun _ => default, fun _ => .vNames [], fun _ => true, ["g/s0"]⟩ : Reader) si2 ie2 e2) :=
  C9_padding_offset_no_accumulation [(2, 3)] [((5 : Int), (9 : Int))]
    ⟨[], mkIndexDiffs (Padding.pairs [(2, 3)]), none⟩
    (⟨fun _ => default, fun _ => .vNames [], fun _ => true, ["g/s0"]⟩ : Reader) 0 [] []
    ⟨[], mkIndexDiffs (Padding.pairs [(2, 3)]), some (["g/s0"].map baseNameOf)⟩ [] rfl

theorem checkSeqNames_error_of_bad (seq0 : List String) (l : List FileEntry)
    (hbad : ∃ x ∈ l, x.isSf = false ∨
      ∃ s, x = .sf s ∧ keySetEq (keysOf s.images) seq0 = false) :
    ∃ er, checkSeqNames seq0 l = .error er := by
  induction l with
  | nil => simp at hbad
  | cons x rest ih =>
    obtain ⟨y, hy, hyb⟩ := hbad
    rcases List.mem_cons.mp hy with rfl | hyr
    · rcases hyb with hns | ⟨s, rfl, hks⟩
      · cases y with
        | sf s => simp [FileEntry.isSf] at hns
        | otherType tag => exact ⟨_, rfl⟩
      · cases hk : keySetEq (keysOf s.images) seq0 with
        | true => rw [hk] at hks; cases hks
        | false => exact ⟨⟨.valueError, "inconsistent sequence names in the subject list"⟩, by simp [checkSeqNames, hk]⟩
    · cases x with
      | sf s =>
        cases hk : keySetEq (keysOf s.images) seq0 with
        | true =>
          obtain ⟨er, her⟩ := ih ⟨y, hyr, hyb⟩
          exact ⟨er, by simp [checkSeqNames, hk, her]⟩
        | false => exact ⟨⟨.valueError, "inconsistent sequence names in the subject list"⟩, by simp [checkSeqNames, hk]⟩
      | otherType tag => exact ⟨_, rfl⟩

theorem checkGtNone_error_of_bad (l : List FileEntry)
    (hbad : ∃ s, FileEntry.sf s ∈ l ∧ s.label_images ≠ none) :
    ∃ er, checkGtNone l = .error er := by
  induction l with
  | nil => obtain ⟨s, hs, _⟩ := hbad; simp at hs
  | cons x rest ih =>
    obtain ⟨s, hs, hsl⟩ := hbad
    rcases List.mem_cons.mp hs with heq | hyr
    · rw [← heq]
      cases hl : s.label_images with
      | none => exact absurd hl hsl
      | some ll => exact ⟨⟨.valueError, "inconsistent gt names in the subject list"⟩, by simp [checkGtNone, hl]⟩
    · cases x with
      | sf s2 =>
        cases hl : s2.label_images with
        | none =>
          obtain ⟨er, her⟩ := ih ⟨s, hyr, hsl⟩
          exact ⟨er, by simp [checkGtNone, hl, her]⟩
        | some ll => exact ⟨⟨.valueError, "inconsistent gt names in the subject list"⟩, by simp [checkGtNone, hl]⟩
      | otherType tag => exact ⟨_, rfl⟩

theorem checkGtNames_error_of_bad (gts0 : List String) (l : List FileEntry)
    (hbad : ∃ s, FileEntry.sf s ∈ l ∧ (s.label_images = none ∨
      ∃ ll, s.label_images = some ll ∧ keySetEq (keysOf ll) gts0 = false)) :
    ∃ er, checkGtNames gts0 l = .error er := by
  induction l with
  | nil => obtain ⟨s, hs, _⟩ := hbad; simp at hs
  | cons x rest ih =>
    obtain ⟨s, hs, hsl⟩ := hbad
    rcases List.mem_cons.mp hs with heq | hyr
    · rw [← heq]
      rcases hsl with hnone | ⟨ll, hll, hks⟩
      · exact ⟨⟨.attributeError, "NoneType has no attribute keys"⟩, by simp [checkGtNames, hnone]⟩
      · exact ⟨⟨.valueError, "inconsistent gt names in the subject list"⟩, by simp [checkGtNames, hll, hks]⟩
    · cases x with
      | sf s2 =>
        cases hl : s2.label_images with
        | none => exact ⟨⟨.attributeError, "NoneType has no attribute keys"⟩, by simp [checkGtNames, hl]⟩
        | some ll2 =>
          cases hk : keySetEq (keysOf ll2) gts0 with
          | true =>
            obtain ⟨er, her⟩ := ih ⟨s, hyr, hsl⟩
            exact ⟨er, by simp [checkGtNames, hl, hk, her]⟩
          | false => exact ⟨⟨.valueError, "inconsistent gt names in the subject list"⟩, by simp [checkGtNames, hl, hk]⟩
      | otherType tag => exact ⟨_, rfl⟩

/-- C5: a subject list that is empty, contains a non-SubjectFile element,
or contains a subject whose sequence-name set or ground-truth-name set
differs from the first subject's, makes SubjectFileTraverser.traverse
raise before any Loader call and before any callback hook fires: the
traversal errors with an empty event trace and no payloads. -/
theorem C5_traverser_fail_fast (files : List FileEntry) (loader : Loader)
    (transform : Option (SubjPayload → SubjPayload))
    (hbad : files = [] ∨
      (∃ x ∈ files, x.isSf = false) ∨
      (∃ s0 s, files.head? = some (.sf s0) ∧ FileEntry.sf s ∈ files ∧
        keySetEq (keysOf s.images) (keysOf s0.images) = false) ∨
      (∃ s0 s, files.head? = some (.sf s0) ∧ FileEntry.sf s ∈ files ∧ gtNamesMismatch s0 s)) :
    (SubjectFileTraverser.traverse files loader transform).error.isSome = true ∧
    (SubjectFileTraverser.traverse files loader transform).events = [] ∧
    (SubjectFileTraverser.traverse files loader transform).payloads = [] := by
  suffices h : ∃ er, SubjectFileTraverser.traverse files loader transform
      = ⟨[], [], some er⟩ by
    obtain ⟨er, he⟩ := h
    rw [he]
    exact ⟨rfl, rfl, rfl⟩
  rcases hbad with rfl | hex | ⟨s0, s, hhead, hmem, hks⟩ | ⟨s0, s, hhead, hmem, hgt⟩
  · exact ⟨⟨.valueError, "No files"⟩, by unfold SubjectFileTraverser.traverse; rw [if_pos (show ([] : List FileEntry).length = 0 from rfl)]⟩
  · cases files with
    | nil => simp at hex
    | cons f0 rest =>
      cases f0 with
      | otherType tag =>
        refine ⟨⟨.valueError, "files must be of type SubjectFile"⟩, ?_⟩
        unfold SubjectFileTraverser.traverse
        rw [if_neg (by simp), if_pos (by simp [FileEntry.isSf])]
      | sf s0 =>
        obtain ⟨er, her⟩ := checkSeqNames_error_of_bad (keysOf s0.images) (FileEntry.sf s0 :: rest)
          (by
            obtain ⟨x, hx, hxb⟩ := hex
            exact ⟨x, hx, Or.inl hxb⟩)
        have hseq : getSequenceNames (FileEntry.sf s0 :: rest) = .error er := by
          simp [getSequenceNames, her]
        refine ⟨er, ?_⟩
        unfold SubjectFileTraverser.traverse
        rw [if_neg (by simp), if_neg (by simp [FileEntry.isSf])]
        simp only [hseq]
  · obtain ⟨rest, rfl⟩ : ∃ rest, files = FileEntry.sf s0 :: rest := by
      cases files with
      | nil => simp at hhead
      | cons f0 r =>
        simp only [List.head?_cons, Option.some.injEq] at hhead
        exact ⟨r, by rw [hhead]⟩
    obtain ⟨er, her⟩ := checkSeqNames_error_of_bad (keysOf s0.images) (FileEntry.sf s0 :: rest)
      ⟨FileEntry.sf s, hmem, Or.inr ⟨s, rfl, hks⟩⟩
    have hseq : getSequenceNames (FileEntry.sf s0 :: rest) = .error er := by
      simp [getSequenceNames, her]
    refine ⟨er, ?_⟩
    unfold SubjectFileTraverser.traverse
    rw [if_neg (by simp), if_neg (by simp [FileEntry.isSf])]
    simp only [hseq]
  · obtain ⟨rest, rfl⟩ : ∃ rest, files = FileEntry.sf s0 :: rest := by
      cases files with
      | nil => simp at hhead
      | cons f0 r =>
        simp only [List.head?_cons, Option.some.injEq] at hhead
        exact ⟨r, by rw [hhead]⟩
    cases hseq : getSequenceNames (FileEntry.sf s0 :: rest) with
    | error e =>
      refine ⟨e, ?_⟩
      unfold SubjectFileTraverser.traverse
      rw [if_neg (by simp), if_neg (by simp [FileEntry.isSf])]
      simp only [hseq]
    | ok ns =>
      have hgterr : ∃ er, getGtNames (FileEntry.sf s0 :: rest) = .error er := by
        rcases hgt with ⟨h0, hsome⟩ | ⟨l0, hl0, hrest⟩
        · obtain ⟨er, her⟩ := checkGtNone_error_of_bad (FileEntry.sf s0 :: rest)
            ⟨s, hmem, hsome⟩
          exact ⟨er, by simp [getGtNames, h0, her]⟩
        · obtain ⟨er, her⟩ := checkGtNames_error_of_bad (keysOf l0) (FileEntry.sf s0 :: rest)
            ⟨s, hmem, by
              rcases hrest with hn | ⟨l, hl, hk⟩
              · exact Or.inl hn
              · exact Or.inr ⟨l, hl, hk⟩⟩
          exact ⟨er, by simp [getGtNames, hl0, her]⟩
      obtain ⟨er, her⟩ := hgterr
      refine ⟨er, ?_⟩
      unfold SubjectFileTraverser.traverse
      rw [if_neg (by simp), if_neg (by simp [FileEntry.isSf])]
      simp only [hseq, her]

/-- Witness for C5: a concrete two-subject list whose second subject has
sequence name set T2 instead of the first subject's T1; the traversal
errors with zero Loader calls and zero callbacks. -/
theorem C5_traverser_fail_fast_witness :
    keySetEq (keysOf [("T2", "b")]) (keysOf [("T1", "a")]) = false ∧
    (SubjectFileTraverser.traverse
      [FileEntry.sf ⟨"s1", [("T1", "a")], none⟩, FileEntry.sf ⟨"s2", [("T2", "b")], none⟩]
      ⟨fun f n => f ++ n, fun f n => f ++ n, fun _ => default⟩ none).error.isSome = true ∧
    (SubjectFileTraverser.traverse
      [FileEntry.sf ⟨"s1", [("T1", "a")], none⟩, FileEntry.sf ⟨"s2", [("T2", "b")], none⟩]
      ⟨fun f n => f ++ n, fun f n => f ++ n, fun _ => default⟩ none).events = [] ∧
    (SubjectFileTraverser.traverse
      [FileEntry.sf ⟨"s1", [("T1", "a")], none⟩, FileEntry.sf ⟨"s2", [("T2", "b")], none⟩]
      ⟨fun f n => f ++ n, fun f n => f ++ n, fun _ => default⟩ none).payloads = [] :=
  ⟨by decide,
   C5_traverser_fail_fast
     [FileEntry.sf ⟨"s1", [("T1", "a")], none⟩, FileEntry.sf ⟨"s2", [("T2", "b")], none⟩]
     ⟨fun f n => f ++ n, fun f n => f ++ n, fun _ => default⟩ none
     (Or.inr (Or.inr (Or.inl ⟨⟨"s1", [("T1", "a")], none⟩, ⟨"s2", [("T2", "b")], none⟩,
       rfl, by decide, by decide⟩)))⟩

/-- C6: traversing three subjects, each with sequences T1 and T2 and
ground truth GT, with a pass-through transform, fires on_start once,
on_subject_start and on_subject_end three times each in subject order,
on_image_file six times, on_gt_file three times and on_end once, with one
Loader call per sequence/label file; each subject's on_subject_end payload
holds the two sequences stacked into a two-channel array whose shape is
the common spatial shape plus a channel axis of size 2, channel 0 holding
T1 and channel 1 holding T2. -/
theorem C6_traverser_trace_and_payload (lc : Loader) (fs : List FileEntry)
    (hl : lc = (⟨fun f n => f ++ ":" ++ n, fun f n => f ++ "!" ++ n, fun h => ⟨[2, 3], fun idx => ((h.data.map (fun ch => (ch.toNat : Int))).sum) * 100 + (idx.getD 0 0) * 10 + idx.getD 1 0⟩⟩ : Loader))
    (hf : fs = [FileEntry.sf ⟨"s0", [("T1", "a0"), ("T2", "b0")], some [("GT", "g0")]⟩, FileEntry.sf ⟨"s1", [("T1", "a1"), ("T2", "b1")], some [("GT", "g1")]⟩, FileEntry.sf ⟨"s2", [("T1", "a2"), ("T2", "b2")], some [("GT", "g2")]⟩]) :
    (SubjectFileTraverser.traverse fs lc (some fun p => p)).error = none ∧
    (SubjectFileTraverser.traverse fs lc (some fun p => p)).events =
      [TEvent.onStart,
       TEvent.onSubjectStart "s0" 0,
       TEvent.loadImage "a0" "T1",
       TEvent.onImageFile "s0" 0 "T1" 0 "a0",
       TEvent.loadImage "b0" "T2",
       TEvent.onImageFile "s0" 0 "T2" 1 "b0",
       TEvent.loadImageLabels "g0" "GT",
       TEvent.onGtFile "s0" 0 "GT" 0 "g0",
       TEvent.onSubjectEnd "s0" 0,
       TEvent.onSubjectStart "s1" 1,
       TEvent.loadImage "a1" "T1",
       TEvent.onImageFile "s1" 1 "T1" 0 "a1",
       TEvent.loadImage "b1" "T2",
       TEvent.onImageFile "s1" 1 "T2" 1 "b1",
       TEvent.loadImageLabels "g1" "GT",
       TEvent.onGtFile "s1" 1 "GT" 0 "g1",
       TEvent.onSubjectEnd "s1" 1,
       TEvent.onSubjectStart "s2" 2,
       TEvent.loadImage "a2" "T1",
       TEvent.onImageFile "s2" 2 "T1" 0 "a2",
       TEvent.loadImage "b2" "T2",
       TEvent.onImageFile "s2" 2 "T2" 1 "b2",
       TEvent.loadImageLabels "g2" "GT",
       TEvent.onGtFile "s2" 2 "GT" 0 "g2",
       TEvent.onSubjectEnd "s2" 2,
       TEvent.onEnd] ∧
    ((SubjectFileTraverser.traverse fs lc (some fun p => p)).events.countP fun ev =>
      match ev with
      | TEvent.onStart => true
      | _ => false) = 1 ∧
    ((SubjectFileTraverser.traverse fs lc (some fun p => p)).events.countP fun ev =>
      match ev with
      | TEvent.onSubjectStart _ _ => true
      | _ => false) = 3 ∧
    ((SubjectFileTraverser.traverse fs lc (some fun p => p)).events.countP fun ev =>
      match ev with
      | TEvent.onSubjectEnd _ _ => true
      | _ => false) = 3 ∧
    ((SubjectFileTraverser.traverse fs lc (some fun p => p)).events.countP fun ev =>
      match ev with
      | TEvent.onImageFile _ _ _ _ _ => true
      | _ => false) = 6 ∧
    ((SubjectFileTraverser.traverse fs lc (some fun p => p)).events.countP fun ev =>
      match ev with
      | TEvent.onGtFile _ _ _ _ _ => true
      | _ => false) = 3 ∧
    ((SubjectFileTraverser.traverse fs lc (some fun p => p)).events.countP fun ev =>
      match ev with
      | TEvent.onEnd => true
      | _ => false) = 1 ∧
    ((SubjectFileTraverser.traverse fs lc (some fun p => p)).events.countP fun ev =>
      match ev with
      | TEvent.loadImage _ _ => true
      | _ => false) = 6 ∧
    ((SubjectFileTraverser.traverse fs lc (some fun p => p)).events.countP fun ev =>
      match ev with
      | TEvent.loadImageLabels _ _ => true
      | _ => false) = 3 ∧
    (SubjectFileTraverser.traverse fs lc (some fun p => p)).payloads.length = 3 ∧
    (∀ (k : Nat), k < 3 →
      ((SubjectFileTraverser.traverse fs lc (some fun p => p)).payloads.getD k
        (⟨"", 0, default, none⟩ : SubjPayload)).images.shape = [2, 3, 2]) ∧
    (∀ (k : Nat), k < 3 →
      ((SubjectFileTraverser.traverse fs lc (some fun p => p)).payloads.getD k
        (⟨"", 0, default, none⟩ : SubjPayload)).labels.isSome = true) ∧
    (∀ (k : Nat), k < 3 → ∀ (i : Nat), i < 2 → ∀ (j : Nat), j < 3 →
      ((SubjectFileTraverser.traverse fs lc (some fun p => p)).payloads.getD k
          (⟨"", 0, default, none⟩ : SubjPayload)).images.get [(i : Int), (j : Int), 0]
        = (lc.get_ndarray (lc.load_image (["a0", "a1", "a2"].getD k "") "T1")).get
            [(i : Int), (j : Int)] ∧
      ((SubjectFileTraverser.traverse fs lc (some fun p => p)).payloads.getD k
          (⟨"", 0, default, none⟩ : SubjPayload)).images.get [(i : Int), (j : Int), 1]
        = (lc.get_ndarray (lc.load_image (["b0", "b1", "b2"].getD k "") "T2")).get
            [(i : Int), (j : Int)]) := by
  subst hl
  subst hf
  refine ⟨by decide, by decide, by decide, by decide, by decide, by decide, by decide,
    by decide, by decide, by decide, by decide, by decide, by decide, by decide⟩

/-- Witness for C6: the trace and payload facts at the concrete loader and
three-subject list. -/
theorem C6_traverser_trace_and_payload_witness :
    (SubjectFileTraverser.traverse [FileEntry.sf ⟨"s0", [("T1", "a0"), ("T2", "b0")], some [("GT", "g0")]⟩, FileEntry.sf ⟨"s1", [("T1", "a1"), ("T2", "b1")], some [("GT", "g1")]⟩, FileEntry.sf ⟨"s2", [("T1", "a2"), ("T2", "b2")], some [("GT", "g2")]⟩] (⟨fun f n => f ++ ":" ++ n, fun f n => f ++ "!" ++ n, fun h => ⟨[2, 3], fun idx => ((h.data.map (fun ch => (ch.toNat : Int))).sum) * 100 + (idx.getD 0 0) * 10 + idx.getD 1 0⟩⟩ : Loader) (some fun p => p)).error = none ∧
    (SubjectFileTraverser.traverse [FileEntry.sf ⟨"s0", [("T1", "a0"), ("T2", "b0")], some [("GT", "g0")]⟩, FileEntry.sf ⟨"s1", [("T1", "a1"), ("T2", "b1")], some [("GT", "g1")]⟩, FileEntry.sf ⟨"s2", [("T1", "a2"), ("T2", "b2")], some [("GT", "g2")]⟩] (⟨fun f n => f ++ ":" ++ n, fun f n => f ++ "!" ++ n, fun h => ⟨[2, 3], fun idx => ((h.data.map (fun ch => (ch.toNat : Int))).sum) * 100 + (idx.getD 0 0) * 10 + idx.getD 1 0⟩⟩ : Loader) (some fun p => p)).events =
      [TEvent.onStart,
       TEvent.onSubjectStart "s0" 0,
       TEvent.loadImage "a0" "T1",
       TEvent.onImageFile "s0" 0 "T1" 0 "a0",
       TEvent.loadImage "b0" "T2",
       TEvent.onImageFile "s0" 0 "T2" 1 "b0",
       TEvent.loadImageLabels "g0" "GT",
       TEvent.onGtFile "s0" 0 "GT" 0 "g0",
       TEvent.onSubjectEnd "s0" 0,
       TEvent.onSubjectStart "s1" 1,
       TEvent.loadImage "a1" "T1",
       TEvent.onImageFile "s1" 1 "T1" 0 "a1",
       TEvent.loadImage "b1" "T2",
       TEvent.onImageFile "s1" 1 "T2" 1 "b1",
       TEvent.loadImageLabels "g1" "GT",
       TEvent.onGtFile "s1" 1 "GT" 0 "g1",
       TEvent.onSubjectEnd "s1" 1,
       TEvent.onSubjectStart "s2" 2,
       TEvent.loadImage "a2" "T1",
       TEvent.onImageFile "s2" 2 "T1" 0 "a2",
       TEvent.loadImage "b2" "T2",
       TEvent.onImageFile "s2" 2 "T2" 1 "b2",
       TEvent.loadImageLabels "g2" "GT",
       TEvent.onGtFile "s2" 2 "GT" 0 "g2",
       TEvent.onSubjectEnd "s2" 2,
       TEvent.onEnd] ∧
    ((SubjectFileTraverser.traverse [FileEntry.sf ⟨"s0", [("T1", "a0"), ("T2", "b0")], some [("GT", "g0")]⟩, FileEntry.sf ⟨"s1", [("T1", "a1"), ("T2", "b1")], some [("GT", "g1")]⟩, FileEntry.sf ⟨"s2", [("T1", "a2"), ("T2", "b2")], some [("GT", "g2")]⟩] (⟨fun f n => f ++ ":" ++ n, fun f n => f ++ "!" ++ n, fun h => ⟨[2, 3], fun idx => ((h.data.map (fun ch => (ch.toNat : Int))).sum) * 100 + (idx.getD 0 0) * 10 + idx.getD 1 0⟩⟩ : Loader) (some fun p => p)).events.countP fun ev =>
      match ev with
      | TEvent.onStart => true
      | _ => false) = 1 ∧
    ((SubjectFileTraverser.traverse [FileEntry.sf ⟨"s0", [("T1", "a0"), ("T2", "b0")], some [("GT", "g0")]⟩, FileEntry.sf ⟨"s1", [("T1", "a1"), ("T2", "b1")], some [("GT", "g1")]⟩, FileEntry.sf ⟨"s2", [("T1", "a2"), ("T2", "b2")], some [("GT", "g2")]⟩] (⟨fun f n => f ++ ":" ++ n, fun f n => f ++ "!" ++ n, fun h => ⟨[2, 3], fun idx => ((h.data.map (fun ch => (ch.toNat : Int))).sum) * 100 + (idx.getD 0 0) * 10 + idx.getD 1 0⟩⟩ : Loader) (some fun p => p)).events.countP fun ev =>
      match ev with
      | TEvent.onSubjectStart _ _ => true
      | _ => false) = 3 ∧
    ((SubjectFileTraverser.traverse [FileEntry.sf ⟨"s0", [("T1", "a0"), ("T2", "b0")], some [("GT", "g0")]⟩, FileEntry.sf ⟨"s1", [("T1", "a1"), ("T2", "b1")], some [("GT", "g1")]⟩, FileEntry.sf ⟨"s2", [("T1", "a2"), ("T2", "b2")], some [("GT", "g2")]⟩] (⟨fun f n => f ++ ":" ++ n, fun f n => f ++ "!" ++ n, fun h => ⟨[2, 3], fun idx => ((h.data.map (fun ch => (ch.toNat : Int))).sum) * 100 + (idx.getD 0 0) * 10 + idx.getD 1 0⟩⟩ : Loader) (some fun p => p)).events.countP fun ev =>
      match ev with
      | TEvent.onSubjectEnd _ _ => true
      | _ => false) = 3 ∧
    ((SubjectFileTraverser.traverse [FileEntry.sf ⟨"s0", [("T1", "a0"), ("T2", "b0")], some [("GT", "g0")]⟩, FileEntry.sf ⟨"s1", [("T1", "a1"), ("T2", "b1")], some [("GT", "g1")]⟩, FileEntry.sf ⟨"s2", [("T1", "a2"), ("T2", "b2")], some [("GT", "g2")]⟩] (⟨fun f n => f ++ ":" ++ n, fun f n => f ++ "!" ++ n, fun h => ⟨[2, 3], fun idx => ((h.data.map (fun ch => (ch.toNat : Int))).sum) * 100 + (idx.getD 0 0) * 10 + idx.getD 1 0⟩⟩ : Loader) (some fun p => p)).events.countP fun ev =>
      match ev with
      | TEvent.onImageFile _ _ _ _ _ => true
      | _ => false) = 6 ∧
    ((SubjectFileTraverser.traverse [FileEntry.sf ⟨"s0", [("T1", "a0"), ("T2", "b0")], some [("GT", "g0")]⟩, FileEntry.sf ⟨"s1", [("T1", "a1"), ("T2", "b1")], some [("GT", "g1")]⟩, FileEntry.sf ⟨"s2", [("T1", "a2"), ("T2", "b2")], some [("GT", "g2")]⟩] (⟨fun f n => f ++ ":" ++ n, fun f n => f ++ "!" ++ n, fun h => ⟨[2, 3], fun idx => ((h.data.map (fun ch => (ch.toNat : Int))).sum) * 100 + (idx.getD 0 0) * 10 + idx.getD 1 0⟩⟩ : Loader) (some fun p => p)).events.countP fun ev =>
      match ev with
      | TEvent.onGtFile _ _ _ _ _ => true
      | _ => false) = 3 ∧
    ((SubjectFileTraverser.traverse [FileEntry.sf ⟨"s0", [("T1", "a0"), ("T2", "b0")], some [("GT", "g0")]⟩, FileEntry.sf ⟨"s1", [("T1", "a1"), ("T2", "b1")], some [("GT", "g1")]⟩, FileEntry.sf ⟨"s2", [("T1", "a2"), ("T2", "b2")], some [("GT", "g2")]⟩] (⟨fun f n => f ++ ":" ++ n, fun f n => f ++ "!" ++ n, fun h => ⟨[2, 3], fun idx => ((h.data.map (fun ch => (ch.toNat : Int))).sum) * 100 + (idx.getD 0 0) * 10 + idx.getD 1 0⟩⟩ : Loader) (some fun p => p)).events.countP fun ev =>
      match ev with
      | TEvent.onEnd => true
      | _ => false) = 1 ∧
    ((SubjectFileTraverser.traverse [FileEntry.sf ⟨"s0", [("T1", "a0"), ("T2", "b0")], some [("GT", "g0")]⟩, FileEntry.sf ⟨"s1", [("T1", "a1"), ("T2", "b1")], some [("GT", "g1")]⟩, FileEntry.sf ⟨"s2", [("T1", "a2"), ("T2", "b2")], some [("GT", "g2")]⟩] (⟨fun f n => f ++ ":" ++ n, fun f n => f ++ "!" ++ n, fun h => ⟨[2, 3], fun idx => ((h.data.map (fun ch => (ch.toNat : Int))).sum) * 100 + (idx.getD 0 0) * 10 + idx.getD 1 0⟩⟩ : Loader) (some fun p => p)).events.countP fun ev =>
      match ev with
      | TEvent.loadImage _ _ => true
      | _ => false) = 6 ∧
    ((SubjectFileTraverser.traverse [FileEntry.sf ⟨"s0", [("T1", "a0"), ("T2", "b0")], some [("GT", "g0")]⟩, FileEntry.sf ⟨"s1", [("T1", "a1"), ("T2", "b1")], some [("GT", "g1")]⟩, FileEntry.sf ⟨"s2", [("T1", "a2"), ("T2", "b2")], some [("GT", "g2")]⟩] (⟨fun f n => f ++ ":" ++ n, fun f n => f ++ "!" ++ n, fun h => ⟨[2, 3], fun idx => ((h.data.map (fun ch => (ch.toNat : Int))).sum) * 100 + (idx.getD 0 0) * 10 + idx.getD 1 0⟩⟩ : Loader) (some fun p => p)).events.countP fun ev =>
      match ev with
      | TEvent.loadImageLabels _ _ => true
      | _ => false) = 3 ∧
    (SubjectFileTraverser.traverse [FileEntry.sf ⟨"s0", [("T1", "a0"), ("T2", "b0")], some [("GT", "g0")]⟩, FileEntry.sf ⟨"s1", [("T1", "a1"), ("T2", "b1")], some [("GT", "g1")]⟩, FileEntry.sf ⟨"s2", [("T1", "a2"), ("T2", "b2")], some [("GT", "g2")]⟩] (⟨fun f n => f ++ ":" ++ n, fun f n => f ++ "!" ++ n, fun h => ⟨[2, 3], fun idx => ((h.data.map (fun ch => (ch.toNat : Int))).sum) * 100 + (idx.getD 0 0) * 10 + idx.getD 1 0⟩⟩ : Loader) (some fun p => p)).payloads.length = 3 ∧
    (∀ (k : Nat), k < 3 →
      ((SubjectFileTraverser.traverse [FileEntry.sf ⟨"s0", [("T1", "a0"), ("T2", "b0")], some [("GT", "g0")]⟩, FileEntry.sf ⟨"s1", [("T1", "a1"), ("T2", "b1")], some [("GT", "g1")]⟩, FileEntry.sf ⟨"s2", [("T1", "a2"), ("T2", "b2")], some [("GT", "g2")]⟩] (⟨fun f n => f ++ ":" ++ n, fun f n => f ++ "!" ++ n, fun h => ⟨[2, 3], fun idx => ((h.data.map (fun ch => (ch.toNat : Int))).sum) * 100 + (idx.getD 0 0) * 10 + idx.getD 1 0⟩⟩ : Loader) (some fun p => p)).payloads.getD k
        (⟨"", 0, default, none⟩ : SubjPayload)).images.shape = [2, 3, 2]) ∧
    (∀ (k : Nat), k < 3 →
      ((SubjectFileTraverser.traverse [FileEntry.sf ⟨"s0", [("T1", "a0"), ("T2", "b0")], some [("GT", "g0")]⟩, FileEntry.sf ⟨"s1", [("T1", "a1"), ("T2", "b1")], some [("GT", "g1")]⟩, FileEntry.sf ⟨"s2", [("T1", "a2"), ("T2", "b2")], some [("GT", "g2")]⟩] (⟨fun f n => f ++ ":" ++ n, fun f n => f ++ "!" ++ n, fun h => ⟨[2, 3], fun idx => ((h.data.map (fun ch => (ch.toNat : Int))).sum) * 100 + (idx.getD 0 0) * 10 + idx.getD 1 0⟩⟩ : Loader) (some fun p => p)).payloads.getD k
        (⟨"", 0, default, none⟩ : SubjPayload)).labels.isSome = true) ∧
    (∀ (k : Nat), k < 3 → ∀ (i : Nat), i < 2 → ∀ (j : Nat), j < 3 →
      ((SubjectFileTraverser.traverse [FileEntry.sf ⟨"s0", [("T1", "a0"), ("T2", "b0")], some [("GT", "g0")]⟩, FileEntry.sf ⟨"s1", [("T1", "a1"), ("T2", "b1")], some [("GT", "g1")]⟩, FileEntry.sf ⟨"s2", [("T1", "a2"), ("T2", "b2")], some [("GT", "g2")]⟩] (⟨fun f n => f ++ ":" ++ n, fun f n => f ++ "!" ++ n, fun h => ⟨[2, 3], fun idx => ((h.data.map (fun ch => (ch.toNat : Int))).sum) * 100 + (idx.getD 0 0) * 10 + idx.getD 1 0⟩⟩ : Loader) (some fun p => p)).payloads.getD k
          (⟨"", 0, default, none⟩ : SubjPayload)).images.get [(i : Int), (j : Int), 0]
        = ((⟨fun f n => f ++ ":" ++ n, fun f n => f ++ "!" ++ n, fun h => ⟨[2, 3], fun idx => ((h.data.map (fun ch => (ch.toNat : Int))).sum) * 100 + (idx.getD 0 0) * 10 + idx.getD 1 0⟩⟩ : Loader).get_ndarray ((⟨fun f n => f ++ ":" ++ n, fun f n => f ++ "!" ++ n, fun h => ⟨[2, 3], fun idx => ((h.data.map (fun ch => (ch.toNat : Int))).sum) * 100 + (idx.getD 0 0) * 10 + idx.getD 1 0⟩⟩ : Loader).load_image (["a0", "a1", "a2"].getD k "") "T1")).get
            [(i : Int), (j : Int)] ∧
      ((SubjectFileTraverser.traverse [FileEntry.sf ⟨"s0", [("T1", "a0"), ("T2", "b0")], some [("GT", "g0")]⟩, FileEntry.sf ⟨"s1", [("T1", "a1"), ("T2", "b1")], some [("GT", "g1")]⟩, FileEntry.sf ⟨"s2", [("T1", "a2"), ("T2", "b2")], some [("GT", "g2")]⟩] (⟨fun f n => f ++ ":" ++ n, fun f n => f ++ "!" ++ n, fun h => ⟨[2, 3], fun idx => ((h.data.map (fun ch => (ch.toNat : Int))).sum) * 100 + (idx.getD 0 0) * 10 + idx.getD 1 0⟩⟩ : Loader) (some fun p => p)).payloads.getD k
          (⟨"", 0, default, none⟩ : SubjPayload)).images.get [(i : Int), (j : Int), 1]
        = ((⟨fun f n => f ++ ":" ++ n, fun f n => f ++ "!" ++ n, fun h => ⟨[2, 3], fun idx => ((h.data.map (fun ch => (ch.toNat : Int))).sum) * 100 + (idx.getD 0 0) * 10 + idx.getD 1 0⟩⟩ : Loader).get_ndarray ((⟨fun f n => f ++ ":" ++ n, fun f n => f ++ "!" ++ n, fun h => ⟨[2, 3], fun idx => ((h.data.map (fun ch => (ch.toNat : Int))).sum) * 100 + (idx.getD 0 0) * 10 + idx.getD 1 0⟩⟩ : Loader).load_image (["b0", "b1", "b2"].getD k "") "T2")).get
            [(i : Int), (j : Int)]) :=
  C6_traverser_trace_and_payload (⟨fun f n => f ++ ":" ++ n, fun f n => f ++ "!" ++ n, fun h => ⟨[2, 3], fun idx => ((h.data.map (fun ch => (ch.toNat : Int))).sum) * 100 + (idx.getD 0 0) * 10 + idx.getD 1 0⟩⟩ : Loader)
    [FileEntry.sf ⟨"s0", [("T1", "a0"), ("T2", "b0")], some [("GT", "g0")]⟩, FileEntry.sf ⟨"s1", [("T1", "a1"), ("T2", "b1")], some [("GT", "g1")]⟩, FileEntry.sf ⟨"s2", [("T1", "a2"), ("T2", "b2")], some [("GT", "g2")]⟩] rfl rfl
